import Mathlib

/-!
# Verification of the production-validation framework core

A shallow embedding, in Lean 4, of the aggregation and checker logic of the
`validation_framework` package (orchestrator tally, schema validator, env-file
validator, API endpoint validator, database validator, load tester), together
with theorems settling the specified behavioural properties.

Python conventions are modelled as follows: dictionaries with optional keys
become structures with `Option` fields, Python `None` becomes `Option.none`,
machine floats that only ever hold exact ratio arithmetic become `ℚ`, and a
checker body that may raise is written in the `Except` monad with exceptions as
explicit error values.
-/

set_option autoImplicit false

namespace PVF

/-! ## Orchestrator tally (`validate_production_readiness.py`)

A flattened test record as seen by `ProductionValidator._update_test_counts`:
`test.get("status")` is an optional string, `test.get("passed")` is `True`,
`False` or absent/`None`.
-/

structure TestRecord where
  name : String
  status : Option String
  passed : Option Bool
  message : String
  deriving Repr, DecidableEq

/-- The four running counters held on the `ProductionValidator` instance. -/
structure Counts where
  total : Nat
  passed : Nat
  failed : Nat
  warned : Nat
  deriving Repr, DecidableEq

def initCounts : Counts := ⟨0, 0, 0, 0⟩

/-- One iteration of the loop in `ProductionValidator._update_test_counts`:
`total_tests += 1`, then the `if/elif/elif` classification chain. -/
def updateOne (c : Counts) (t : TestRecord) : Counts :=
  let c := { c with total := c.total + 1 }
  if t.status = some "PASS" ∨ t.passed = some true then
    { c with passed := c.passed + 1 }
  else if t.status = some "FAIL" ∨ t.passed = some false then
    { c with failed := c.failed + 1 }
  else if t.status = some "WARNING" then
    { c with warned := c.warned + 1 }
  else
    c

/-- `ProductionValidator._update_test_counts` over one list of tests. -/
def updateTestCounts (c : Counts) (ts : List TestRecord) : Counts :=
  ts.foldl updateOne c

/-- The `summary` record built by `ProductionValidator._add_summary`
(time fields omitted: they are wall-clock collaborators). -/
structure ValidationSummary where
  tests_passed : Nat
  tests_failed : Nat
  tests_warned : Nat
  total_tests : Nat
  pass_percentage : ℚ
  production_ready : Bool
  deriving Repr, DecidableEq

/-- `ProductionValidator._add_summary`. -/
def addSummary (c : Counts) : ValidationSummary :=
  { tests_passed := c.passed
    tests_failed := c.failed
    tests_warned := c.warned
    total_tests := c.total
    pass_percentage :=
      if c.total > 0 then ((c.passed : ℚ) / (c.total : ℚ)) * 100 else 0
    production_ready := c.failed == 0 }

/-- An orchestrator run, as far as the tally is concerned: the sequence of
test lists handed to `_update_test_counts` by the `_run_*` section methods. -/
def countsOfRun (run : List (List TestRecord)) : Counts :=
  run.foldl updateTestCounts initCounts

def summaryOfRun (run : List (List TestRecord)) : ValidationSummary :=
  addSummary (countsOfRun run)

/-- A test record that `_update_test_counts` classifies as a failure:
not caught by the PASS branch, caught by the FAIL branch. -/
def failClassified (t : TestRecord) : Bool :=
  (!(t.status = some "PASS" ∨ t.passed = some true : Bool)) &&
    (t.status = some "FAIL" ∨ t.passed = some false : Bool)

/-- A test record that falls through every branch of the classification
chain in `_update_test_counts`. -/
def unclassified (t : TestRecord) : Prop :=
  t.status ≠ some "PASS" ∧ t.status ≠ some "FAIL" ∧ t.status ≠ some "WARNING" ∧
    t.passed ≠ some true ∧ t.passed ≠ some false

instance (t : TestRecord) : Decidable (unclassified t) := by
  unfold unclassified; infer_instance

/-! ## Schema validator (`api_tests/api_validator.py`, `validate_schema`)

JSON-decoded Python values and the recursive schema descriptors accepted by
`validate_schema`: a primitive type tag, a list `[item_schema]` (only index 0
is consulted), or a dict of required keys.
-/

inductive PyVal where
  | str (s : String)
  | int (n : Int)
  | bool (b : Bool)
  | float (q : ℚ)
  | list (xs : List PyVal)
  | dict (kvs : List (String × PyVal))
  | none
  deriving Repr

inductive PyType where
  | str
  | int
  | bool
  | float
  | list
  | dict
  | noneType
  deriving Repr, DecidableEq

/-- `type(data).__name__`. -/
def PyVal.typeName : PyVal → String
  | .str _ => "str"
  | .int _ => "int"
  | .bool _ => "bool"
  | .float _ => "float"
  | .list _ => "list"
  | .dict _ => "dict"
  | .none => "NoneType"

/-- `schema.__name__` for a primitive type tag. -/
def PyType.pyName : PyType → String
  | .str => "str"
  | .int => "int"
  | .bool => "bool"
  | .float => "float"
  | .list => "list"
  | .dict => "dict"
  | .noneType => "NoneType"

/-- Python `isinstance`; note `bool` is a subclass of `int`. -/
def pyIsinstance : PyVal → PyType → Bool
  | .str _, .str => true
  | .int _, .int => true
  | .bool _, .int => true
  | .bool _, .bool => true
  | .float _, .float => true
  | .list _, .list => true
  | .dict _, .dict => true
  | .none, .noneType => true
  | _, _ => false

inductive Schema where
  | tyTag (t : PyType)
  | listSchema (ss : List Schema)
  | dictSchema (kvs : List (String × Schema))
  | other
  deriving Repr

/-- Python dict membership/subscript: `key in data` and `data[key]`. -/
def lookupVal : List (String × PyVal) → String → Option PyVal
  | [], _ => Option.none
  | (k, v) :: rest, key => if k = key then some v else lookupVal rest key

theorem sizeOf_lookupVal {dkvs : List (String × PyVal)} {key : String}
    {v : PyVal} (h : lookupVal dkvs key = some v) : sizeOf v < sizeOf dkvs := by
  induction dkvs with
  | nil => simp [lookupVal] at h
  | cons hd tl ih =>
    obtain ⟨k, w⟩ := hd
    by_cases hk : k = key
    · simp [lookupVal, hk] at h
      subst h
      simp
      omega
    · simp [lookupVal, hk] at h
      have := ih h
      simp
      omega

/-- A single-quoted key, as produced by the f-strings in `validate_schema`. -/
def pyQuote (s : String) : String := "\x27" ++ s ++ "\x27"

mutual

/-- `validate_schema(data, schema)` from `api_tests/api_validator.py`. -/
def validate_schema : PyVal → Schema → Bool × String
  | data, Schema.tyTag t =>
      if pyIsinstance data t then (true, "")
      else (false, "Expected " ++ t.pyName ++ ", got " ++ data.typeName)
  | data, Schema.listSchema ss =>
      match data with
      | PyVal.list xs =>
        match ss with
        | [] => (true, "")
        | s0 :: _ => validateItems s0 xs 0
      | _ => (false, "Expected list, got " ++ data.typeName)
  | data, Schema.dictSchema kvs =>
      match data with
      | PyVal.dict dkvs => validateKeys dkvs kvs
      | _ => (false, "Expected dict, got " ++ data.typeName)
  | _, Schema.other => (true, "")
termination_by data schema => (sizeOf data, 0)

/-- The `for i, item in enumerate(data)` loop of the list-schema branch. -/
def validateItems (s0 : Schema) : List PyVal → Nat → Bool × String
  | [], _ => (true, "")
  | x :: rest, i =>
      match validate_schema x s0 with
      | (true, _) => validateItems s0 rest (i + 1)
      | (false, msg) => (false, "item[" ++ toString i ++ "] -> " ++ msg)
termination_by xs i => (sizeOf xs, 0)

/-- The `for key, val_schema in schema.items()` loop of the dict-schema branch. -/
def validateKeys (dkvs : List (String × PyVal)) : List (String × Schema) → Bool × String
  | [] => (true, "")
  | (key, vschema) :: rest =>
      match h : lookupVal dkvs key with
      | Option.none => (false, "Missing required key: " ++ pyQuote key)
      | some v =>
        match validate_schema v vschema with
        | (true, _) => validateKeys dkvs rest
        | (false, msg) => (false, pyQuote key ++ " -> " ++ msg)
termination_by kvs => (sizeOf dkvs, sizeOf kvs)
decreasing_by
  all_goals first
    | decreasing_tactic
    | (simp_wf; exact Prod.Lex.left _ _ (sizeOf_lookupVal h))

end

/-! ## Load tester (`performance_tests/load_tester.py`) -/

/-- Python `int()` conversion of a float: truncation toward zero. -/
def pyIntOfRat (q : ℚ) : Int :=
  (if q.num < 0 then -1 else 1) * Int.ofNat (q.num.natAbs / q.den)

/-- Python list indexing `xs[i]`, with negative indices counting from the
end (out-of-range indices are never produced by `get_percentile` for
percentiles in `[0, 100]`). -/
def pyIndex (xs : List ℚ) (i : Int) : ℚ :=
  if i < 0 then xs.getD (xs.length - (-i).toNat) 0 else xs.getD i.toNat 0

/-- Insertion step for the model of Python `sorted` (ascending). -/
def insertSorted (x : ℚ) : List ℚ → List ℚ
  | [] => [x]
  | y :: ys => if x ≤ y then x :: y :: ys else y :: insertSorted x ys

/-- Python `sorted(data)` on floats, modelled by insertion sort. -/
def pySorted (l : List ℚ) : List ℚ := l.foldr insertSorted []

/-- `get_percentile(data, percentile)` from `performance_tests/load_tester.py`. -/
def get_percentile (data : List ℚ) (percentile : ℚ) : ℚ :=
  if data = [] then 0
  else
    let sorted_data := pySorted data
    let n := sorted_data.length
    if n = 1 then pyIndex sorted_data 0
    else
      let idx : ℚ := ((n : ℚ) - 1) * (percentile / 100)
      let lower : Int := pyIntOfRat idx
      let upper : Int := lower + 1
      let weight : ℚ := idx - (lower : ℚ)
      if upper ≥ (n : Int) then pyIndex sorted_data lower
      else pyIndex sorted_data lower * (1 - weight) + pyIndex sorted_data upper * weight

/-- One attempted request inside `LoadTestWorker.run`: either a completed
HTTP exchange or a raised `requests.RequestException`. -/
inductive Attempt where
  | response (status : Nat) (time : ℚ) (body : String)
  | requestError (msg : String)
  deriving Repr

/-- An error entry appended to `results["errors"]`. -/
inductive WorkerError where
  | httpError (url : String) (status : Nat) (body : String)
  | exceptionError (url : String) (msg : String)
  deriving Repr

/-- The per-worker accumulator dict of `LoadTestWorker` (the summary
statistics added after the loop are derived data and play no role in the
merge invariants). -/
structure WorkerResults where
  requests : Nat
  successful : Nat
  failed : Nat
  response_times : List ℚ
  errors : List WorkerError
  deriving Repr

def initWorkerResults : WorkerResults := ⟨0, 0, 0, [], []⟩

/-- One iteration of the request loop in `LoadTestWorker.run`. -/
def workerStep (url : String) (r : WorkerResults) (a : Attempt) : WorkerResults :=
  match a with
  | .response status t body =>
      let r := { r with
        requests := r.requests + 1
        response_times := r.response_times ++ [t] }
      if status < 400 then
        { r with successful := r.successful + 1 }
      else
        { r with
          failed := r.failed + 1
          errors := r.errors ++ [WorkerError.httpError url status body] }
  | .requestError msg =>
      { r with
        requests := r.requests + 1
        failed := r.failed + 1
        errors := r.errors ++ [WorkerError.exceptionError url msg] }

/-- `LoadTestWorker.run`, with the wall-clock-bounded loop abstracted to the
finite sequence of attempts the worker performs before its deadline. -/
def loadTestWorkerRun (url : String) (attempts : List Attempt) : WorkerResults :=
  attempts.foldl (workerStep url) initWorkerResults

/-- One iteration of the merge loop of `run_load_test`: summation of
counters and concatenation of lists. -/
def mergeStep (c w : WorkerResults) : WorkerResults :=
  { requests := c.requests + w.requests
    successful := c.successful + w.successful
    failed := c.failed + w.failed
    response_times := c.response_times ++ w.response_times
    errors := c.errors ++ w.errors }

/-- The merge loop of `run_load_test` across all finished workers. -/
def combineResults (ws : List WorkerResults) : WorkerResults :=
  ws.foldl mergeStep initWorkerResults

/-! ## Python string primitives

Structurally recursive models of the Python `str` methods the framework
uses, over the character list of a `String` (the core library versions are
compiled by well-founded recursion and therefore do not evaluate inside the
kernel; these do).
-/

def pyLower (s : String) : String := String.mk (s.data.map Char.toLower)

def pyUpper (s : String) : String := String.mk (s.data.map Char.toUpper)

/-- The whitespace set stripped by Python `str.strip()`. -/
def pySpaceChar (c : Char) : Bool :=
  c == ' ' || c == '\t' || c == '\n' || c == '\r' || c == '\x0b' || c == '\x0c'

def pyTrim (s : String) : String :=
  String.mk (((s.data.dropWhile pySpaceChar).reverse.dropWhile pySpaceChar).reverse)

def pyStartsWith (s p : String) : Bool := p.data.isPrefixOf s.data

def pyEndsWith (s p : String) : Bool := p.data.reverse.isPrefixOf s.data.reverse

def pyDropStr (s : String) (n : Nat) : String := String.mk (s.data.drop n)

def pyDropRight (s : String) (n : Nat) : String :=
  String.mk (s.data.take (s.data.length - n))

def pyDropWhileStr (f : Char → Bool) (s : String) : String :=
  String.mk (s.data.dropWhile f)

def pyTakeWhileStr (f : Char → Bool) (s : String) : String :=
  String.mk (s.data.takeWhile f)

def pyContainsChar (s : String) (c : Char) : Bool := s.data.contains c

/-- Python `len` on a string. -/
def pyLen (s : String) : Nat := s.data.length

/-- Splitting scan for `str.split(sep)`; `fuel` starts at the text length
and strictly bounds the number of scan steps. -/
def splitOnCharsAux (sep : List Char) : Nat → List Char → List Char →
    List (List Char)
  | _, [], acc => [acc.reverse]
  | 0, rest, acc => [acc.reverse ++ rest]
  | Nat.succ fuel, c :: cs, acc =>
      if sep.isPrefixOf (c :: cs) then
        acc.reverse :: splitOnCharsAux sep fuel (List.drop sep.length (c :: cs)) []
      else splitOnCharsAux sep fuel cs (c :: acc)

/-- Python `s.split(sep)` for a non-empty separator. -/
def pySplit (s sep : String) : List String :=
  if sep = "" then [s]
  else (splitOnCharsAux sep.data s.data.length s.data []).map String.mk

def pyIntercalate (sep : String) : List String → String
  | [] => ""
  | [x] => x
  | x :: y :: xs => x ++ sep ++ pyIntercalate sep (y :: xs)

/-- Infix scan for the substring test, fuelled like `splitOnCharsAux`. -/
def listIsInfix (pat : List Char) : Nat → List Char → Bool
  | _, [] => pat.isEmpty
  | 0, _ => false
  | Nat.succ fuel, c :: cs => pat.isPrefixOf (c :: cs) || listIsInfix pat fuel cs

/-- Python substring test `pat in hay`. -/
def strContains (hay pat : String) : Bool :=
  if pat = "" then true else listIsInfix pat.data hay.data.length hay.data

def digitsToNat (ds : List Char) : Option Nat :=
  if ds.isEmpty then Option.none
  else if ds.all Char.isDigit then
    some (ds.foldl (fun acc c => acc * 10 + (c.toNat - 48)) 0)
  else Option.none

/-! ## Environment config checker (`config_validators/env_validator.py`) -/

/-- The fixed placeholder list inside `is_placeholder`. -/
def placeholders : List String :=
  ["your-secret-here", "REPLACE_ME", "example", "placeholder", "TODO"]

/-- `is_placeholder(value)`: placeholder substring match (case-insensitive)
or fewer than 3 distinct characters. -/
def is_placeholder (value : String) : Bool :=
  placeholders.any (fun p => strContains (pyLower value) (pyLower p)) ||
    value.data.eraseDups.length < 3

/-- Python `int(value)` on a string: optional surrounding whitespace, an
optional sign, then decimal digits; `ValueError` is modelled as `none`. -/
def pyParseInt (s : String) : Option Int :=
  let t := pyTrim s
  match t.data with
  | [] => Option.none
  | c :: cs =>
    if c == '-' then (digitsToNat cs).map (fun n => -(n : Int))
    else if c == '+' then (digitsToNat cs).map (fun n => (n : Int))
    else (digitsToNat (c :: cs)).map (fun n => (n : Int))

/-- One variable rule of `ENV_SCHEMA` (the unused `default` key is dropped;
`rule.get("required", False)` makes `required` default to `false`). -/
structure EnvRule where
  type : String := "str"
  required : Bool := false
  allowed : Option (List String) := Option.none
  min : Option Int := Option.none
  max : Option Int := Option.none
  min_len : Option Nat := Option.none
  no_sqlite_prod : Bool := false
  prod_require : Option String := Option.none
  deriving Repr, DecidableEq

/-- `validate_type(value, rule)` from `config_validators/env_validator.py`.
(The compiled-then-unused HTTP URL regex of the `url` branch is dead code:
the branch only tests for a `"://"` substring.) -/
def validate_type (value : String) (rule : EnvRule) : Bool × String :=
  let v_type := rule.type
  if v_type = "bool" then
    (["true", "false", "1", "0", "yes", "no"].contains (pyLower value),
      "Must be a boolean value, got " ++ pyQuote value)
  else if v_type = "int" then
    match pyParseInt value with
    | some val =>
        if rule.min.elim false (fun m => decide (val < m)) then
          (false, "Value " ++ toString val ++ " is below minimum " ++
            toString (rule.min.getD 0))
        else if rule.max.elim false (fun m => decide (val > m)) then
          (false, "Value " ++ toString val ++ " is above maximum " ++
            toString (rule.max.getD 0))
        else (true, "")
    | Option.none => (false, "Must be an integer, got " ++ pyQuote value)
  else if v_type = "url" then
    if strContains value "://" then (true, "")
    else (false, "Must be a valid connection URL, got " ++ pyQuote value)
  else if v_type = "email" then
    ((match pySplit value "@" with
      | _ :: second :: _ => pyContainsChar second '.'
      | _ => false),
      "Must be a valid email, got " ++ pyQuote value)
  else if v_type = "secret" then
    if is_placeholder value then (false, "Value appears to be a placeholder")
    else if rule.min_len.elim false (fun ml => decide (pyLen value < ml)) then
      (false, "Secret is too short (min " ++ toString (rule.min_len.getD 0) ++
        " chars)")
    else (true, "")
  else if v_type = "list" then
    (decide ((pySplit value ",").length > 0), "Must be a comma-separated list")
  else
    match rule.allowed with
    | some l =>
        if l.contains value then (true, "")
        else (false, "Value " ++ pyQuote value ++ " not in allowed list: " ++
          pyIntercalate ", " l)
    | Option.none => (true, "")

/-- The `ENV_SCHEMA` table, in source (insertion) order. -/
def ENV_SCHEMA : List (String × List (String × EnvRule)) :=
  [("CORE PLATFORM CONFIGURATION",
    [("ENVIRONMENT",
      { type := "str", allowed := some ["development", "staging", "production"], required := true }),
     ("DEBUG", { type := "bool", required := true }),
     ("LOG_LEVEL",
      { type := "str", allowed := some ["DEBUG", "INFO", "WARNING", "ERROR", "CRITICAL"], required := true }),
     ("PLATFORM_NAME", { type := "str", required := true }),
     ("PLATFORM_VERSION", { type := "str", required := true })]),
   ("DATABASE CONFIGURATION",
    [("DATABASE_URL", { type := "url", required := true, no_sqlite_prod := true }),
     ("DATABASE_ENCRYPTION_KEY",
      { type := "secret", min_len := some 32, required := true })]),
   ("JWT AUTHENTICATION & SECURITY",
    [("JWT_SECRET_KEY", { type := "secret", min_len := some 32, required := true }),
     ("JWT_ALGORITHM",
      { type := "str", allowed := some ["HS256", "RS256"], required := true }),
     ("JWT_EXPIRATION_HOURS", { type := "int", min := some 1, required := true }),
     ("ENCRYPTION_KEY", { type := "secret", min_len := some 32, required := true }),
     ("SSL_ENABLED",
      { type := "bool", required := false, prod_require := some "true" })]),
   ("WEB SERVER & API CONFIGURATION",
    [("API_HOST", { type := "str", required := true }),
     ("API_PORT",
      { type := "int", min := some 1, max := some 65535, required := true }),
     ("API_CORS_ORIGINS", { type := "list", required := true })]),
   ("EMAIL CONFIGURATION",
    [("SMTP_SERVER", { type := "str", required := true }),
     ("SMTP_PORT",
      { type := "int", min := some 1, max := some 65535, required := true }),
     ("SMTP_USE_TLS", { type := "bool", required := true }),
     ("SMTP_FROM_EMAIL", { type := "email", required := true })]),
   ("BACKUP & MONITORING",
    [("BACKUP_ENABLED", { type := "bool", required := true }),
     ("BACKUP_INTERVAL_HOURS", { type := "int", min := some 1, required := true }),
     ("HEALTH_CHECK_INTERVAL", { type := "int", min := some 1, required := true })])]

def envSchemaSections : List String := ENV_SCHEMA.map (·.1)

/-- Surrounding quote stripping as done by the `python-dotenv` collaborator. -/
def stripQuotes (v : String) : String :=
  if pyLen v ≥ 2 then
    if (pyStartsWith v "\"" && pyEndsWith v "\"") ||
        (pyStartsWith v "\x27" && pyEndsWith v "\x27") then
      pyDropRight (pyDropStr v 1) 1
    else v
  else v

/-- One line of an env file, as read by `python-dotenv`: blank lines and
comment lines yield nothing, otherwise split on the first `=`. -/
def dotenvLine (line : String) : Option (String × String) :=
  let t := pyTrim line
  if t = "" then Option.none
  else if pyStartsWith t "#" then Option.none
  else
    match pySplit t "=" with
    | [] => Option.none
    | [_] => Option.none
    | k :: vs => some (pyTrim k, stripQuotes (pyTrim (pyIntercalate "=" vs)))

/-- Model of the external collaborator `dotenv.dotenv_values` for plain
`KEY=VALUE` env files (spec §1 treats env-file reading as a collaborator). -/
def dotenv_values (content : String) : List (String × String) :=
  (pySplit content "\n").filterMap dotenvLine

/-- Python dict lookup on the parsed pairs: the last assignment to a key wins. -/
def envGet (l : List (String × String)) (key : String) : Option String :=
  (l.reverse.find? (fun p => p.1 == key)).map (·.2)

/-- `parse_env_sections(content)`: comment lines whose `#`-stripped text is a
known schema section name, in file order. -/
def parse_env_sections (content : String) : List String :=
  (pySplit content "\n").filterMap (fun line =>
    if pyStartsWith line "#" then
      let s := pyTrim (pyDropWhileStr (fun c => c == '#') line)
      if envSchemaSections.contains s then some s else Option.none
    else Option.none)

/-- The mutable parts of the `results` dict threaded through the loops of
`validate_env_file`. -/
structure EnvAcc where
  tests : List TestRecord := []
  total : Nat := 0
  passed_tests : Nat := 0
  failed_tests : Nat := 0
  deriving Repr, DecidableEq

/-- The per-variable body of the inner loop of `validate_env_file`. -/
def envVarCheck (env_vars : List (String × String)) (is_production : Bool)
    (acc : EnvAcc) (vr : String × EnvRule) : EnvAcc :=
  let var_name := vr.1
  let rule := vr.2
  let presence (missing : Bool) : EnvAcc :=
    if missing then
      if rule.required then
        { acc with
          tests := acc.tests ++ [⟨"Variable presence: " ++ var_name, some "FAIL",
            Option.none, "Mandatory variable " ++ var_name ++ " is missing"⟩]
          total := acc.total + 1
          failed_tests := acc.failed_tests + 1 }
      else
        { acc with
          tests := acc.tests ++ [⟨"Variable presence: " ++ var_name, some "PASS",
            Option.none, "Optional variable " ++ var_name ++ " is missing"⟩]
          total := acc.total + 1
          passed_tests := acc.passed_tests + 1 }
    else acc
  match envGet env_vars var_name with
  | Option.none => presence true
  | some v =>
    if v = "" then presence true
    else
      let vm := validate_type v rule
      let vm :=
        if is_production && rule.no_sqlite_prod && strContains (pyLower v) "sqlite"
        then (false, "SQLite is not allowed in production") else vm
      let vm :=
        match rule.prod_require with
        | some pr =>
            if is_production && pyLower v != pyLower pr then
              (false, "In production, " ++ var_name ++ " must be " ++ pr)
            else vm
        | Option.none => vm
      { acc with
        tests := acc.tests ++ [⟨"Variable validation: " ++ var_name,
          some (if vm.1 then "PASS" else "FAIL"), Option.none,
          if vm.1 then var_name ++ " is valid"
          else var_name ++ " invalid: " ++ vm.2⟩]
        total := acc.total + 1
        passed_tests := acc.passed_tests + (if vm.1 then 1 else 0)
        failed_tests := acc.failed_tests + (if vm.1 then 0 else 1) }

/-- The per-section body of the outer loop of `validate_env_file` (a section
header that is merely missing is a WARNING and still counts as passed). -/
def envSectionCheck (env_vars : List (String × String))
    (env_sections : List String) (is_production : Bool)
    (required_sections : List String) (acc : EnvAcc)
    (sec : String × List (String × EnvRule)) : EnvAcc :=
  if required_sections.contains sec.1 then
    let present := env_sections.contains sec.1
    let acc :=
      { acc with
        tests := acc.tests ++ [⟨"Section check: " ++ sec.1,
          some (if present then "PASS" else "WARNING"), Option.none,
          if present then "Section " ++ pyQuote sec.1 ++ " is documented"
          else "Section header " ++ pyQuote sec.1 ++ " missing from comments"⟩]
        total := acc.total + 1
        passed_tests := acc.passed_tests + 1 }
    sec.2.foldl (envVarCheck env_vars is_production) acc
  else acc

structure EnvResults where
  passed : Bool
  total : Nat
  passed_tests : Nat
  failed_tests : Nat
  tests : List TestRecord
  deriving Repr, DecidableEq

/-- `validate_env_file(env_file_path, required_sections)`. The file system is
abstracted to `envFile`: `none` when `os.path.exists` is false, otherwise the
file content. -/
def validate_env_file (env_file_path : String) (envFile : Option String)
    (required_sections : Option (List String)) : EnvResults :=
  match envFile with
  | Option.none =>
      { passed := false
        total := 1
        passed_tests := 0
        failed_tests := 1
        tests := [⟨"File existence check", some "FAIL", Option.none,
          "Environment file " ++ env_file_path ++ " does not exist"⟩] }
  | some content =>
      let env_vars := dotenv_values content
      let env_sections := parse_env_sections content
      let req := required_sections.getD envSchemaSections
      let is_production :=
        pyLower ((envGet env_vars "ENVIRONMENT").getD "") == "production"
      let acc : EnvAcc :=
        ENV_SCHEMA.foldl (envSectionCheck env_vars env_sections is_production req)
          {}
      { passed := acc.failed_tests == 0
        total := acc.total
        passed_tests := acc.passed_tests
        failed_tests := acc.failed_tests
        tests := acc.tests }

/-- The `required_sections` list passed by `ProductionValidator._run_env_validation`. -/
def orchestratorEnvSections : List String :=
  ["CORE PLATFORM CONFIGURATION", "DATABASE CONFIGURATION",
   "JWT AUTHENTICATION & SECURITY"]

/-! ## API endpoint validator (`api_tests/api_validator.py`)

Outbound HTTP is a collaborator: each call's outcome is an oracle value,
`Except` error meaning a raised `requests.RequestException` (the class every
network/timeout failure of `requests` belongs to). Python-level dynamic-type
faults are outside the embedding.
-/

structure HttpResponse where
  status_code : Nat
  headers : List (String × String)
  /-- `response.json()`: `some` when the body parses as JSON. -/
  jsonBody : Option PyVal
  text : String

/-- `requests` response headers are case-insensitive dicts. -/
def headerGet (hs : List (String × String)) (name : String) : Option String :=
  (hs.find? (fun p => pyLower p.1 == pyLower name)).map (·.2)

def headerHas (hs : List (String × String)) (name : String) : Bool :=
  (headerGet hs name).isSome

/-- Python dict assignment `d[k] = v`. -/
def dictSet (l : List (String × String)) (k v : String) :
    List (String × String) :=
  if (l.find? (fun p => p.1 == k)).isSome then
    l.map (fun p => if p.1 == k then (k, v) else p)
  else l ++ [(k, v)]

/-- Keyword arguments of `APIEndpointValidator.validate_endpoint`, with the
Python default values. -/
structure EndpointCfg where
  endpoint : String
  method : String := "GET"
  expected_status : Nat := 200
  expected_content_type : String := "application/json"
  required_fields : Option (List String) := Option.none
  expected_schema : Option Schema := Option.none
  payload : Option PyVal := Option.none
  authentication_required : Bool := false
  sla_ms : Option ℚ := Option.none

/-- The relevant instance state set up by `APIEndpointValidator.__init__`. -/
structure ValidatorCtx where
  base_url : String
  headers : List (String × String)
  timeout : ℚ := 10
  sla_ms : ℚ := 500

/-- Outcomes of the outbound calls made by one `validate_endpoint` run.
`noAuthRequest` is a function of the header set actually sent, so a theorem
can observe that the retry goes out with `Authorization` stripped. -/
structure NetOracle where
  mainRequest : Except String HttpResponse
  noAuthRequest : List (String × String) → Except String HttpResponse
  responseTime : ℚ

/-- The per-test dicts built by `validate_endpoint`: a boolean `passed` key,
no `status` key. -/
structure EndpointTest where
  name : String
  passed : Bool
  message : String
  deriving Repr, DecidableEq

structure EndpointResult where
  endpoint : String
  method : String
  url : String
  passed : Bool
  tests : List EndpointTest
  status_code : Option Nat := Option.none
  error : Option String := Option.none
  deriving Repr, DecidableEq

/-- The Python exceptions a `validate_endpoint` run can encounter: the
`requests.RequestException` family (all that the `except` clause at the end
of `validate_endpoint` catches) and `TypeError` (raised by a membership
test on a non-container value; nothing in `validate_endpoint` catches it). -/
inductive PyExc where
  | requestException (msg : String)
  | typeError (msg : String)
  deriving Repr, DecidableEq

/-- Python `f in response_json` for a JSON value: key membership for dicts,
element membership for lists, substring for strings — and a raised
`TypeError` for the scalar values `int`, `float`, `bool` and `None`. -/
def pyJsonHasField (j : PyVal) (f : String) : Except PyExc Bool :=
  match j with
  | .dict kvs => Except.ok (lookupVal kvs f).isSome
  | .list xs => Except.ok (xs.any (fun x =>
      match x with
      | .str s => s == f
      | _ => false))
  | .str s => Except.ok (strContains s f)
  | _ => Except.error (PyExc.typeError
      ("argument of type " ++ pyQuote j.typeName ++ " is not iterable"))

/-- The comprehension `[f for f in required_fields if f not in
response_json]`, evaluated left to right; the first membership test against
a scalar body raises. -/
def missingFields (json : PyVal) : List String → Except PyExc (List String)
  | [] => Except.ok []
  | f :: rest => do
      let b ← pyJsonHasField json f
      let ms ← missingFields json rest
      Except.ok (if b then ms else f :: ms)

/-- `sla_ms or self.sla_ms`: a `None` or zero per-endpoint SLA falls back to
the validator default. -/
def targetSla (ctx : ValidatorCtx) (cfg : EndpointCfg) : ℚ :=
  match cfg.sla_ms with
  | some v => if v = 0 then ctx.sla_ms else v
  | Option.none => ctx.sla_ms

/-- Python truthiness of a schema value under `if expected_schema:`: empty
list and dict schemas are falsy; type objects, non-empty containers and the
remaining (non-scalar) shapes are truthy. -/
def Schema.pyTruthy : Schema → Bool
  | .listSchema ss => !ss.isEmpty
  | .dictSchema kvs => !kvs.isEmpty
  | .tyTag _ => true
  | .other => true

/-- The `elif required_fields:` branch of Test 3: a `None` or empty field
list is falsy and emits nothing; otherwise the comprehension runs (and can
raise `TypeError`). -/
def requiredFieldsTest (json : PyVal) :
    Option (List String) → Except PyExc (List EndpointTest)
  | some fields =>
      if fields.isEmpty then Except.ok []
      else
        match missingFields json fields with
        | Except.ok missing =>
            Except.ok [{ name := "Required fields check"
                         passed := missing.isEmpty
                         message := if missing.isEmpty then "All fields present"
                           else "Missing: " ++ pyIntercalate ", " missing }]
        | Except.error e => Except.error e
  | Option.none => Except.ok []

/-- Test 3 of `validate_endpoint`: `if expected_schema: ... elif
required_fields: ...` on a JSON body; both guards are Python truthiness
tests. -/
def schemaTestsFor (expected_schema : Option Schema)
    (required_fields : Option (List String)) (jsonBody : Option PyVal) :
    Except PyExc (List EndpointTest) :=
  match jsonBody with
  | some json =>
      match expected_schema with
      | some sch =>
          if sch.pyTruthy then
            let vm := validate_schema json sch
            Except.ok [{ name := "Schema validation"
                         passed := vm.1
                         message := if vm.1 then "Schema matches"
                           else "Schema mismatch: " ++ vm.2 }]
          else requiredFieldsTest json required_fields
      | Option.none => requiredFieldsTest json required_fields
  | Option.none => Except.ok []

/-- Test 4 of `validate_endpoint`: when authentication is required, repeat
the request with the `Authorization` header stripped; 401/403 passes, a
connection failure passes (`except` branch), anything else fails. -/
def authTestsFor (authentication_required : Bool)
    (request_headers : List (String × String))
    (noAuth : List (String × String) → Except String HttpResponse) :
    List EndpointTest :=
  if authentication_required then
    let no_auth_headers := request_headers.filter (fun p => p.1 != "Authorization")
    match noAuth no_auth_headers with
    | Except.ok no_auth_res =>
        let auth_passed := no_auth_res.status_code == 401 ||
          no_auth_res.status_code == 403
        [{ name := "Auth enforcement"
           passed := auth_passed
           message := if auth_passed then
               "Access denied as expected (Got " ++
                 toString no_auth_res.status_code ++ ")"
             else "Endpoint allowed unauthorized access" }]
    | Except.error _ =>
        [⟨"Auth enforcement", true, "Connection refused without auth"⟩]
  else []

/-- The result record assembled at the end of the `try` block once the
Test 3 battery `schemaTests` has been computed without raising. -/
def endpointRecordOf (ctx : ValidatorCtx) (cfg : EndpointCfg)
    (trackingId : String) (orc : NetOracle) (response : HttpResponse)
    (schemaTests : List EndpointTest) : EndpointResult :=
  let url := ctx.base_url ++ cfg.endpoint
  let method := pyUpper cfg.method
  let request_headers := dictSet ctx.headers "X-Request-ID" trackingId
  let response_time := orc.responseTime
  let trackingTest : EndpointTest :=
    { name := "Tracking ID support"
      passed := headerHas response.headers "X-Request-ID" ||
        response.status_code < 500
      message := "API should ideally echo or support X-Request-ID" }
  let statusTest : EndpointTest :=
    { name := "Status code check"
      passed := response.status_code == cfg.expected_status
      message := "Expected " ++ toString cfg.expected_status ++ ", got " ++
        toString response.status_code }
  let content_type := (headerGet response.headers "Content-Type").getD ""
  let contentTest : EndpointTest :=
    { name := "Content type check"
      passed := strContains content_type cfg.expected_content_type
      message := "Expected " ++ cfg.expected_content_type ++ ", got " ++
        content_type }
  let authTests :=
    authTestsFor cfg.authentication_required request_headers orc.noAuthRequest
  let slaTest : EndpointTest :=
    { name := "SLA Response time"
      passed := response_time ≤ targetSla ctx cfg
      message := toString response_time ++ "ms (SLA: " ++
        toString (targetSla ctx cfg) ++ "ms)" }
  let tests := [trackingTest, statusTest, contentTest] ++ schemaTests ++
    authTests ++ [slaTest]
  { endpoint := cfg.endpoint
    method := method
    url := url
    passed := tests.all (·.passed)
    tests := tests
    status_code := some response.status_code }

/-- The `try` body of `validate_endpoint` after the main request returned a
response: Test 3 may raise `TypeError`, in which case the later tests (the
auth retry included) never run. -/
def endpointResultOf (ctx : ValidatorCtx) (cfg : EndpointCfg)
    (trackingId : String) (orc : NetOracle) (response : HttpResponse) :
    Except PyExc EndpointResult :=
  match schemaTestsFor cfg.expected_schema cfg.required_fields
      response.jsonBody with
  | Except.ok schemaTests =>
      Except.ok (endpointRecordOf ctx cfg trackingId orc response schemaTests)
  | Except.error e => Except.error e

/-- The `try` block of `validate_endpoint`: `requests.request` raises a
`RequestException` on network failure; the rest of the block can raise
`TypeError` through Test 3. -/
def validateEndpointBody (ctx : ValidatorCtx) (cfg : EndpointCfg)
    (trackingId : String) (orc : NetOracle) : Except PyExc EndpointResult :=
  match orc.mainRequest with
  | Except.ok response => endpointResultOf ctx cfg trackingId orc response
  | Except.error e => Except.error (PyExc.requestException e)

/-- `APIEndpointValidator.validate_endpoint`: the handler catches exactly
`requests.RequestException`; any other exception propagates out of the
checker. -/
def validate_endpoint (ctx : ValidatorCtx) (cfg : EndpointCfg)
    (trackingId : String) (orc : NetOracle) : Except PyExc EndpointResult :=
  match validateEndpointBody ctx cfg trackingId orc with
  | Except.ok r => Except.ok r
  | Except.error (PyExc.requestException e) =>
      Except.ok
        { endpoint := cfg.endpoint
          method := pyUpper cfg.method
          url := ctx.base_url ++ cfg.endpoint
          passed := false
          tests := [⟨"Network connectivity", false, "Request failed: " ++ e⟩]
          error := some e }
  | Except.error e => Except.error e

/-- The fixed probe list of `discover_api_endpoints`. -/
def common_paths : List String :=
  ["/", "/api", "/api/v1", "/api/v2", "/health", "/status", "/docs",
   "/api/docs", "/swagger", "/api/users", "/api/auth/login",
   "/api/auth/register", "/api/products", "/api/orders"]

/-- `APIEndpointValidator.discover_api_endpoints`: HEAD each common path,
append it when the response status is `< 404`, skip it when the probe
raises. -/
def discover_api_endpoints (probe : String → Except String Nat) :
    List String :=
  common_paths.foldl
    (fun discovered path =>
      match probe path with
      | Except.ok status => if status < 404 then discovered ++ [path] else discovered
      | Except.error _ => discovered)
    []

/-- The endpoint configurations built by `auto_validate_endpoints` from the
discovery result. -/
def autoEndpointConfigs (probe : String → Except String Nat) :
    List EndpointCfg :=
  (discover_api_endpoints probe).map (fun e =>
    { endpoint := e
      method := "GET"
      expected_status := 200
      authentication_required := false })

/-! ## Database validator (`config_validators/db_validator.py`)

Database drivers and live connections are collaborators: driver availability
flags and the outcome of each driver call (raised exception vs. returned
data) are oracle inputs. Every helper wraps its body in
`try/except Exception`, modelled by running the body in `Except` and
converting the error into the helper's error field.
-/

structure UrlParts where
  scheme : String
  netloc : String
  path : String
  query : String

/-- Model of the collaborator `urllib.parse.urlparse` for the
`scheme://netloc/path?query` shapes of connection strings; a string with no
`"://"` parses as a bare path. -/
def urlparseModel (cs : String) : UrlParts :=
  if strContains cs "://" then
    match pySplit cs "://" with
    | scheme :: rest =>
        let after := pyIntercalate "://" rest
        let netloc := pyTakeWhileStr (fun c => !(c == '/' || c == '?' || c == '#')) after
        let rest2 := pyDropStr after (pyLen netloc)
        let path := pyTakeWhileStr (fun c => !(c == '?' || c == '#')) rest2
        let afterPath := pyDropStr rest2 (pyLen path)
        let query :=
          if pyStartsWith afterPath "?" then
            pyTakeWhileStr (fun c => !(c == '#')) (pyDropStr afterPath 1)
          else ""
        { scheme := scheme, netloc := netloc, path := path, query := query }
    | [] => { scheme := "", netloc := "", path := cs, query := "" }
  else { scheme := "", netloc := "", path := cs, query := "" }

/-- Python `s.split(sep, 1)`: the part before the first separator, and the
remainder when the separator occurs. -/
def splitFirst (s : String) (sep : String) : String × Option String :=
  match pySplit s sep with
  | [] => (s, Option.none)
  | [a] => (a, Option.none)
  | a :: rest => (a, some (pyIntercalate sep rest))

/-- `dict(param.split('=') for param in query.split('&'))`: raises
`ValueError` (modelled as `Except.error`) when any parameter does not split
into exactly two parts. -/
def parseQueryParams (query : String) : Except String (List (String × String)) :=
  if query = "" then Except.ok []
  else
    let parts := (pySplit query "&").map (fun p => pySplit p "=")
    if parts.all (fun l => l.length == 2) then
      Except.ok (parts.map (fun l => (l.headD "", l.getD 1 "")))
    else Except.error "dictionary update sequence element has wrong length"

structure DbInfo where
  valid : Bool
  error : Option String := Option.none
  dbType : String := ""
  username : String := ""
  password : Option String := Option.none
  host : String := ""
  port : Option String := Option.none
  database : String := ""
  path : String := ""
  query_params : List (String × String) := []
  deriving Repr

/-- `parse_db_url(connection_string)`; its `try/except` converts the
query-parameter `ValueError` into `{'valid': False, 'error': ...}`. -/
def parse_db_url (connection_string : String) : DbInfo :=
  let r := urlparseModel connection_string
  let db_type := (pySplit r.scheme "+").headD ""
  if db_type = "sqlite" then
    { valid := true, dbType := "sqlite", path := pyDropWhileStr (fun c => c == '/') r.path }
  else
    let user_pass := (pySplit r.netloc "@").headD ""
    let (username, password) := splitFirst user_pass ":"
    let host_port :=
      if strContains r.netloc "@" then (pySplit r.netloc "@").getD 1 ""
      else r.netloc
    let (host, port) := splitFirst host_port ":"
    let database := pyDropWhileStr (fun c => c == '/') r.path
    match parseQueryParams r.query with
    | Except.ok qp =>
        { valid := true, dbType := db_type, username := username, password := password, host := host, port := port, database := database, query_params := qp }
    | Except.error e => { valid := false, error := some e }

/-- The module-level `*_AVAILABLE` driver-import flags. -/
structure Drivers where
  postgres : Bool
  mysql : Bool
  sqlite : Bool

/-- Outcomes of the driver calls performed during one `validate_database`
run: connect-and-`SELECT 1` round trip (elapsed ms), table listing, and the
`PRAGMA` index listing (index name with its column names). -/
structure DBOracle where
  connectionOutcome : Except String ℚ
  tablesOutcome : Except String (List String)
  indexesOutcome : Except String (List (String × List String))

structure ConnResult where
  connected : Bool
  response_time : Option ℚ := Option.none
  error : Option String := Option.none
  deriving Repr

/-- The `try` body of `check_connection`. -/
def check_connection_body (db_info : DbInfo) (drivers : Drivers)
    (orc : DBOracle) : Except String ConnResult :=
  if db_info.dbType = "postgresql" then
    if !drivers.postgres then
      Except.ok { connected := false, error := some "PostgreSQL driver (psycopg2) not installed" }
    else do
      let t ← orc.connectionOutcome
      Except.ok { connected := true, response_time := some t }
  else if db_info.dbType = "mysql" then
    if !drivers.mysql then
      Except.ok { connected := false, error := some "MySQL driver (pymysql) not installed" }
    else do
      let t ← orc.connectionOutcome
      Except.ok { connected := true, response_time := some t }
  else if db_info.dbType = "sqlite" then
    if !drivers.sqlite then
      Except.ok { connected := false, error := some "SQLite driver not available" }
    else do
      let t ← orc.connectionOutcome
      Except.ok { connected := true, response_time := some t }
  else
    Except.ok { connected := false, error := some ("Unsupported database type: " ++ db_info.dbType) }

/-- `check_connection`, with its `except Exception` handler. -/
def check_connection (db_info : DbInfo) (drivers : Drivers) (orc : DBOracle) :
    ConnResult :=
  match check_connection_body db_info drivers orc with
  | Except.ok r => r
  | Except.error e => { connected := false, error := some e }

def required_tables : List String := ["customers", "integrations", "security_logs"]

def migration_tables : List String :=
  ["alembic_version", "django_migrations", "flyway_schema_history",
   "schema_migrations"]

/-- Whether `check_schema_integrity` can build a connection for this engine. -/
def driverFor (db_info : DbInfo) (drivers : Drivers) : Bool :=
  (db_info.dbType == "postgresql" && drivers.postgres) ||
    (db_info.dbType == "mysql" && drivers.mysql) ||
    (db_info.dbType == "sqlite" && drivers.sqlite)

structure SchemaCheck where
  passed : Bool
  tables_found : List String := []
  missing_tables : List String := []
  has_migrations : Bool := false
  error : Option String := Option.none
  deriving Repr

/-- The `try` body of `check_schema_integrity`. -/
def check_schema_integrity_body (db_info : DbInfo) (drivers : Drivers)
    (orc : DBOracle) : Except String SchemaCheck :=
  if driverFor db_info drivers then do
    let existing ← orc.tablesOutcome
    let missing := required_tables.filter (fun t => !existing.contains t)
    Except.ok
      { passed := missing.isEmpty
        tables_found := existing
        missing_tables := missing
        has_migrations := migration_tables.any (fun m => existing.contains m) }
  else Except.ok { passed := false, error := some "Database driver not available" }

/-- `check_schema_integrity`, with its `except Exception` handler. -/
def check_schema_integrity (db_info : DbInfo) (drivers : Drivers)
    (orc : DBOracle) : SchemaCheck :=
  match check_schema_integrity_body db_info drivers orc with
  | Except.ok r => r
  | Except.error e => { passed := false, error := some e }

structure IndexCheck where
  passed : Bool
  indexed_columns : List String := []
  recommendations : List String := []
  error : Option String := Option.none
  deriving Repr

/-- The `try` body of `check_performance_indexes` (only the sqlite branch
builds a connection in the source). -/
def check_performance_indexes_body (db_info : DbInfo) (drivers : Drivers)
    (orc : DBOracle) : Except String IndexCheck :=
  if db_info.dbType == "sqlite" && drivers.sqlite then do
    let indexes ← orc.indexesOutcome
    let passedCols :=
      if indexes.isEmpty then
        (false, ([] : List String),
          ["No indexes found on " ++ pyQuote "customers" ++ " table"])
      else
        (true,
          indexes.flatMap (fun idx => idx.2.map (fun col => "customers." ++ col)),
          ([] : List String))
    let recs :=
      if !passedCols.2.1.contains "customers.email" then
        passedCols.2.2 ++ ["Add index on " ++ pyQuote "customers.email"]
      else passedCols.2.2
    Except.ok
      { passed := passedCols.1
        indexed_columns := passedCols.2.1
        recommendations := recs }
  else
    Except.ok { passed := false, error := some "Database driver not available or unsupported for index check" }

/-- `check_performance_indexes`, with its `except Exception` handler. -/
def check_performance_indexes (db_info : DbInfo) (drivers : Drivers)
    (orc : DBOracle) : IndexCheck :=
  match check_performance_indexes_body db_info drivers orc with
  | Except.ok r => r
  | Except.error e => { passed := false, error := some e }

/-- Python dict lookup on the parsed query parameters. -/
def qpGet (db_info : DbInfo) (k : String) : Option String :=
  (db_info.query_params.reverse.find? (fun p => p.1 == k)).map (·.2)

/-- `check_connection_pooling`. -/
def check_connection_pooling (db_info : DbInfo) : Bool :=
  if db_info.dbType = "sqlite" then true
  else if db_info.dbType = "postgresql" || db_info.dbType = "mysql" then
    (qpGet db_info "pool_size").isSome || (qpGet db_info "max_overflow").isSome
  else false

/-- `check_db_encryption`. -/
def check_db_encryption (db_info : DbInfo) : Bool :=
  if db_info.dbType = "postgresql" then
    (qpGet db_info "sslmode") == some "verify-ca" ||
      (qpGet db_info "sslmode") == some "verify-full"
  else if db_info.dbType = "mysql" then
    match qpGet db_info "ssl" with
    | some v => pyLower v == "true"
    | Option.none => false
  else false

structure DBResults where
  passed : Bool
  total : Nat
  passed_tests : Nat
  failed_tests : Nat
  tests : List TestRecord
  deriving Repr

/-- `validate_database(connection_string)` from
`config_validators/db_validator.py` (float formatting of the round-trip time
in the success message is a rendering collaborator, modelled by `toString`). -/
def validate_database (connection_string : String) (drivers : Drivers)
    (orc : DBOracle) : DBResults :=
  let db_info := parse_db_url connection_string
  if !db_info.valid then
    { passed := false
      total := 1
      passed_tests := 0
      failed_tests := 1
      tests := [⟨"Connection string validation", some "FAIL", Option.none,
        "Invalid connection string: " ++ db_info.error.getD "Unknown error"⟩] }
  else
    let t1 : TestRecord := ⟨"Connection string validation", some "PASS",
      Option.none,
      "Connection string is valid for " ++ db_info.dbType ++ " database"⟩
    let sqlite_in_prod := db_info.dbType = "sqlite"
    let t2 : TestRecord := ⟨"Production database check",
      some (if sqlite_in_prod then "WARNING" else "PASS"), Option.none,
      if sqlite_in_prod then "SQLite is not recommended for production use"
      else "Production-ready database engine in use"⟩
    let conn := check_connection db_info drivers orc
    let t3 : TestRecord := ⟨"Database connection",
      some (if conn.connected then "PASS" else "FAIL"), Option.none,
      if conn.connected then
        "Connected successfully (Response time: " ++
          toString (conn.response_time.getD 0) ++ "ms)"
      else "Connection failed: " ++ conn.error.getD "Unknown error"⟩
    let baseTests := [t1, t2, t3]
    let basePassed := 1 + (if sqlite_in_prod then 0 else 1) +
      (if conn.connected then 1 else 0)
    let baseFailed := if conn.connected then 0 else 1
    if conn.connected then
      let schema_result := check_schema_integrity db_info drivers orc
      let t4 : TestRecord := ⟨"Schema integrity check",
        some (if schema_result.passed then "PASS" else "FAIL"), Option.none,
        if schema_result.passed then "All required tables found"
        else "Missing tables: " ++
          pyIntercalate ", " schema_result.missing_tables⟩
      let t5 : TestRecord := ⟨"Database migration system",
        some (if schema_result.has_migrations then "PASS" else "WARNING"),
        Option.none,
        if schema_result.has_migrations then "Database migration table detected"
        else "No standard migration table found (Alembic/Flyway/etc.)"⟩
      let perf_result := check_performance_indexes db_info drivers orc
      let t6 : TestRecord := ⟨"Performance indexing check",
        some (if perf_result.passed then "PASS" else "WARNING"), Option.none,
        if perf_result.passed then
          "Found " ++ toString perf_result.indexed_columns.length ++ " indexes"
        else "No performance indexes detected"⟩
      let has_pooling := check_connection_pooling db_info
      let t7 : TestRecord := ⟨"Connection pooling configuration",
        some (if has_pooling then "PASS" else "WARNING"), Option.none,
        if has_pooling then "Connection pooling is properly configured"
        else "Connection pooling not detected (recommended for production)"⟩
      let has_encryption := check_db_encryption db_info
      let t8 : TestRecord := ⟨"Database encryption",
        some (if has_encryption then "PASS" else "WARNING"), Option.none,
        if has_encryption then "Database encryption is configured"
        else "Database encryption not detected (recommended for sensitive data)"⟩
      let failed := baseFailed + (if schema_result.passed then 0 else 1)
      let passedCount := basePassed + (if schema_result.passed then 1 else 0) +
        1 + 1 + (if has_pooling then 1 else 0) + (if has_encryption then 1 else 0)
      { passed := failed == 0
        total := 8
        passed_tests := passedCount
        failed_tests := failed
        tests := baseTests ++ [t4, t5, t6, t7, t8] }
    else
      { passed := baseFailed == 0
        total := 3
        passed_tests := basePassed
        failed_tests := baseFailed
        tests := baseTests }

/-! ## Tally lemmas and the aggregation claims -/

/-- A test record the PASS branch of `_update_test_counts` catches. -/
def passClassified (t : TestRecord) : Bool :=
  (t.status = some "PASS" ∨ t.passed = some true : Bool)

/-- A test record the WARNING branch of `_update_test_counts` catches. -/
def warnClassified (t : TestRecord) : Bool :=
  (!(t.status = some "PASS" ∨ t.passed = some true : Bool)) &&
    (!(t.status = some "FAIL" ∨ t.passed = some false : Bool)) &&
    (t.status = some "WARNING" : Bool)

theorem updateOne_spec (c : Counts) (t : TestRecord) :
    updateOne c t =
      { total := c.total + 1
        passed := c.passed + (if passClassified t then 1 else 0)
        failed := c.failed + (if failClassified t then 1 else 0)
        warned := c.warned + (if warnClassified t then 1 else 0) } := by
  unfold updateOne passClassified failClassified warnClassified
  split_ifs with h1 h2 h3 <;> simp_all

theorem updateTestCounts_spec (c : Counts) (ts : List TestRecord) :
    updateTestCounts c ts =
      { total := c.total + ts.length
        passed := c.passed + ts.countP passClassified
        failed := c.failed + ts.countP failClassified
        warned := c.warned + ts.countP warnClassified } := by
  induction ts generalizing c with
  | nil => simp [updateTestCounts]
  | cons t ts ih =>
    show updateTestCounts (updateOne c t) ts = _
    rw [ih, updateOne_spec]
    simp [List.countP_cons]
    refine ⟨by omega, by omega, by omega, by omega⟩

theorem countsOfRun_spec (run : List (List TestRecord)) :
    countsOfRun run =
      { total := (run.map List.length).sum
        passed := (run.map (fun ts => ts.countP passClassified)).sum
        failed := (run.map (fun ts => ts.countP failClassified)).sum
        warned := (run.map (fun ts => ts.countP warnClassified)).sum } := by
  suffices h : ∀ c : Counts, run.foldl updateTestCounts c =
      { total := c.total + (run.map List.length).sum
        passed := c.passed + (run.map (fun ts => ts.countP passClassified)).sum
        failed := c.failed + (run.map (fun ts => ts.countP failClassified)).sum
        warned := c.warned + (run.map (fun ts => ts.countP warnClassified)).sum } by
    simpa [countsOfRun, initCounts] using h initCounts
  induction run with
  | nil => intro c; simp
  | cons ts rest ih =>
    intro c
    show rest.foldl updateTestCounts (updateTestCounts c ts) = _
    rw [ih, updateTestCounts_spec]
    simp
    refine ⟨by omega, by omega, by omega, by omega⟩

/-- C1: over any orchestrator run (any sequence of test lists fed to
`_update_test_counts`), the summary's `production_ready` holds iff
`tests_failed` is zero; `tests_failed` counts exactly the FAIL-classified
records, so a run with warnings but no FAIL-classified record is production
ready regardless of `tests_warned`. -/
theorem production_ready_iff_zero_failed (run : List (List TestRecord)) :
    ((summaryOfRun run).production_ready = true ↔
      (summaryOfRun run).tests_failed = 0) ∧
    (summaryOfRun run).tests_failed =
      (run.map (fun ts => ts.countP failClassified)).sum ∧
    ((∀ ts ∈ run, ∀ t ∈ ts, failClassified t = false) →
      (summaryOfRun run).production_ready = true) := by
  refine ⟨?_, ?_, ?_⟩
  · simp [summaryOfRun, addSummary]
  · simp [summaryOfRun, addSummary, countsOfRun_spec]
  · intro h
    simp only [summaryOfRun, addSummary, countsOfRun_spec, beq_iff_eq]
    simp only [List.sum_eq_zero_iff, List.mem_map]
    rintro x ⟨ts, hts, rfl⟩
    rw [List.countP_eq_zero]
    intro t ht
    simpa using h ts hts t ht

/-- Witness: a run consisting of one WARNING test is production ready. -/
theorem production_ready_iff_zero_failed_witness :
    (summaryOfRun [[⟨"Section check", some "WARNING", Option.none, "hdr"⟩]]).production_ready
      = true :=
  (production_ready_iff_zero_failed
    [[⟨"Section check", some "WARNING", Option.none, "hdr"⟩]]).2.2 (by decide)

/-- C8: `_add_summary` guards the percentage: zero `total_tests` yields
`pass_percentage = 0` (no division is attempted), and otherwise the
percentage is `tests_passed / total_tests * 100`. -/
theorem pass_percentage_division_guard (c : Counts) :
    ((addSummary c).total_tests = 0 → (addSummary c).pass_percentage = 0) ∧
    ((addSummary c).total_tests ≠ 0 →
      (addSummary c).pass_percentage =
        ((addSummary c).tests_passed : ℚ) /
          ((addSummary c).total_tests : ℚ) * 100) := by
  constructor
  · intro h
    simp only [addSummary] at h ⊢
    simp [h]
  · intro h
    simp only [addSummary] at h ⊢
    rw [if_pos (by omega)]

/-- Witness: the empty run has zero total tests and percentage 0; a
one-pass-test run has percentage 100. -/
theorem pass_percentage_division_guard_witness :
    (addSummary initCounts).pass_percentage = 0 ∧
    (addSummary ⟨4, 2, 1, 1⟩).pass_percentage = (2 : ℚ) / 4 * 100 :=
  ⟨(pass_percentage_division_guard initCounts).1 (by decide),
   (pass_percentage_division_guard ⟨4, 2, 1, 1⟩).2 (by decide)⟩

theorem classified_indicators_le_one (t : TestRecord) :
    (if passClassified t then 1 else 0) + (if failClassified t then 1 else 0) +
      (if warnClassified t then 1 else 0) ≤ 1 := by
  cases hp : (t.status = some "PASS" ∨ t.passed = some true : Bool) <;>
    cases hf : (t.status = some "FAIL" ∨ t.passed = some false : Bool) <;>
      cases hw : (t.status = some "WARNING" : Bool) <;>
        simp [passClassified, failClassified, warnClassified, hp, hf, hw]

theorem countP_classified_le_length (ts : List TestRecord) :
    ts.countP passClassified + ts.countP failClassified +
      ts.countP warnClassified ≤ ts.length := by
  induction ts with
  | nil => simp
  | cons t ts ih =>
    have ht := classified_indicators_le_one t
    simp only [List.countP_cons, List.length_cons]
    omega

theorem counts_invariant (run : List (List TestRecord)) :
    (countsOfRun run).passed + (countsOfRun run).failed +
      (countsOfRun run).warned ≤ (countsOfRun run).total := by
  rw [countsOfRun_spec]
  induction run with
  | nil => simp
  | cons ts rest ih =>
    have hts := countP_classified_le_length ts
    simp only [List.map_cons, List.sum_cons] at *
    omega

theorem countsOfRun_append_unclassified (run : List (List TestRecord))
    (t : TestRecord) (h : unclassified t) :
    countsOfRun (run ++ [[t]]) =
      { countsOfRun run with total := (countsOfRun run).total + 1 } := by
  obtain ⟨h1, h2, h3, h4, h5⟩ := h
  unfold countsOfRun
  rw [List.foldl_append]
  show updateTestCounts _ [t] = _
  unfold updateTestCounts
  simp [updateOne, h1, h2, h3, h4, h5]

/-- C10: a test record with an unrecognised `status` and no boolean
`passed` value falls through every branch of `_update_test_counts`:
it increments `total_tests` only, so passed + failed + warned can fall
strictly below the total, and appending such a test weakly (strictly, when
any test had passed) lowers `pass_percentage` while leaving
`production_ready` untouched. -/
theorem unclassified_test_tally :
    (∀ (c : Counts) (t : TestRecord), unclassified t →
      updateOne c t = { c with total := c.total + 1 }) ∧
    (∀ run : List (List TestRecord),
      (countsOfRun run).passed + (countsOfRun run).failed +
        (countsOfRun run).warned ≤ (countsOfRun run).total) ∧
    (∃ run : List (List TestRecord),
      (countsOfRun run).passed + (countsOfRun run).failed +
        (countsOfRun run).warned < (countsOfRun run).total) ∧
    (∀ (run : List (List TestRecord)) (t : TestRecord), unclassified t →
      (summaryOfRun (run ++ [[t]])).total_tests =
          (summaryOfRun run).total_tests + 1 ∧
      (summaryOfRun (run ++ [[t]])).tests_passed =
          (summaryOfRun run).tests_passed ∧
      (summaryOfRun (run ++ [[t]])).tests_failed =
          (summaryOfRun run).tests_failed ∧
      (summaryOfRun (run ++ [[t]])).tests_warned =
          (summaryOfRun run).tests_warned ∧
      (summaryOfRun (run ++ [[t]])).production_ready =
          (summaryOfRun run).production_ready ∧
      (summaryOfRun (run ++ [[t]])).pass_percentage ≤
          (summaryOfRun run).pass_percentage ∧
      (0 < (summaryOfRun run).tests_passed →
        (summaryOfRun (run ++ [[t]])).pass_percentage <
          (summaryOfRun run).pass_percentage)) := by
  refine ⟨?_, counts_invariant, ?_, ?_⟩
  · intro c t h
    obtain ⟨h1, h2, h3, h4, h5⟩ := h
    simp [updateOne, h1, h2, h3, h4, h5]
  · exact ⟨[[⟨"u", Option.none, Option.none, ""⟩]], by decide⟩
  · intro run t h
    have key := countsOfRun_append_unclassified run t h
    have hinv := counts_invariant run
    simp only [summaryOfRun, key, addSummary]
    refine ⟨trivial, trivial, trivial, trivial, trivial, ?_, ?_⟩
    · by_cases htot : (countsOfRun run).total = 0
      · have hp : (countsOfRun run).passed = 0 := by omega
        simp [htot, hp]
      · rw [if_pos (by omega), if_pos (by omega)]
        have hle : ((countsOfRun run).passed : ℚ) /
            (((countsOfRun run).total : ℚ) + 1) ≤
            ((countsOfRun run).passed : ℚ) / ((countsOfRun run).total : ℚ) := by
          apply div_le_div_of_nonneg_left (by positivity)
            (by exact_mod_cast Nat.pos_of_ne_zero htot)
          linarith
        push_cast
        nlinarith [hle]
    · intro hp
      have htot : 0 < (countsOfRun run).total := by omega
      rw [if_pos (by omega), if_pos (by omega)]
      have hlt : ((countsOfRun run).passed : ℚ) /
          (((countsOfRun run).total : ℚ) + 1) <
          ((countsOfRun run).passed : ℚ) / ((countsOfRun run).total : ℚ) := by
        apply div_lt_div_of_pos_left (by exact_mod_cast hp)
          (by exact_mod_cast htot)
        linarith
      push_cast
      nlinarith [hlt]

/-- Witness: appending an unclassified test to a one-passing-test run keeps
`production_ready` and strictly lowers the percentage. -/
theorem unclassified_test_tally_witness :
    (summaryOfRun ([[⟨"p", some "PASS", Option.none, ""⟩]] ++
        [[⟨"u", Option.none, Option.none, ""⟩]])).pass_percentage <
      (summaryOfRun [[⟨"p", some "PASS", Option.none, ""⟩]]).pass_percentage :=
  (unclassified_test_tally.2.2.2 [[⟨"p", some "PASS", Option.none, ""⟩]]
    ⟨"u", Option.none, Option.none, ""⟩
    (by decide)).2.2.2.2.2.2 (by decide)

/-! ## Load tester claims -/

/-- C9: the linear-interpolation percentile helper hits the two values the
specification quotes: the median of `[10, 20, 30, 40]` is `25.0`, and the
99th percentile of a singleton is its element. -/
theorem get_percentile_quoted_values :
    get_percentile [10, 20, 30, 40] 50 = 25 ∧ get_percentile [5] 99 = 5 := by
  constructor
  · norm_num [get_percentile, pySorted, insertSorted, pyIndex, pyIntOfRat,
      List.getD]
    norm_num [Int.toNat]
    simp
  · norm_num [get_percentile, pySorted, insertSorted, pyIndex, pyIntOfRat,
      List.getD]

theorem workerFold_counts (url : String) (attempts : List Attempt)
    (r : WorkerResults) :
    (attempts.foldl (workerStep url) r).requests =
        r.requests + attempts.length ∧
      (attempts.foldl (workerStep url) r).successful +
          (attempts.foldl (workerStep url) r).failed =
        r.successful + r.failed + attempts.length := by
  induction attempts generalizing r with
  | nil => simp
  | cons a rest ih =>
    simp only [List.foldl_cons]
    obtain ⟨ih1, ih2⟩ := ih (workerStep url r a)
    rw [ih1, ih2]
    cases a with
    | response status t body =>
        by_cases hs : status < 400 <;>
          simp [workerStep, hs, List.length_cons] <;> omega
    | requestError msg => simp [workerStep, List.length_cons]; omega

theorem loadTestWorkerRun_counts (url : String) (attempts : List Attempt) :
    (loadTestWorkerRun url attempts).requests = attempts.length ∧
    (loadTestWorkerRun url attempts).successful +
        (loadTestWorkerRun url attempts).failed = attempts.length := by
  have h := workerFold_counts url attempts initWorkerResults
  simpa [loadTestWorkerRun, initWorkerResults] using h

theorem combineResults_sums (ws : List WorkerResults) :
    (combineResults ws).requests = (ws.map (fun w => w.requests)).sum ∧
    (combineResults ws).successful = (ws.map (fun w => w.successful)).sum ∧
    (combineResults ws).failed = (ws.map (fun w => w.failed)).sum := by
  suffices h : ∀ c : WorkerResults,
      (ws.foldl mergeStep c).requests =
          c.requests + (ws.map (fun w => w.requests)).sum ∧
      (ws.foldl mergeStep c).successful =
          c.successful + (ws.map (fun w => w.successful)).sum ∧
      (ws.foldl mergeStep c).failed =
          c.failed + (ws.map (fun w => w.failed)).sum by
    simpa [combineResults, initWorkerResults] using h initWorkerResults
  induction ws with
  | nil => intro c; simp
  | cons w rest ih =>
    intro c
    obtain ⟨ih1, ih2, ih3⟩ := ih (mergeStep c w)
    refine ⟨?_, ?_, ?_⟩ <;>
      simp only [List.foldl_cons, List.map_cons, List.sum_cons] <;>
        (first | rw [ih1] | rw [ih2] | rw [ih3]) <;> simp [mergeStep] <;> omega

/-- C4: merging the per-worker partial results of a load test run gives
`requests` equal to the sum of per-worker request counts, and
`successful + failed = requests` exactly, because every attempted request
increments `requests` and exactly one of `successful`/`failed` — including
the `requests.RequestException` case. -/
theorem load_test_merge_exact (workers : List (String × List Attempt)) :
    (combineResults (workers.map (fun w => loadTestWorkerRun w.1 w.2))).requests =
      ((workers.map (fun w => loadTestWorkerRun w.1 w.2)).map
        (fun r => r.requests)).sum ∧
    (combineResults (workers.map (fun w => loadTestWorkerRun w.1 w.2))).successful +
        (combineResults (workers.map (fun w => loadTestWorkerRun w.1 w.2))).failed =
      (combineResults (workers.map (fun w => loadTestWorkerRun w.1 w.2))).requests := by
  obtain ⟨h1, h2, h3⟩ :=
    combineResults_sums (workers.map (fun w => loadTestWorkerRun w.1 w.2))
  refine ⟨h1, ?_⟩
  rw [h1, h2, h3]
  clear h1 h2 h3
  induction workers with
  | nil => simp
  | cons w rest ih =>
    obtain ⟨hw1, hw2⟩ := loadTestWorkerRun_counts w.1 w.2
    simp only [List.map_cons, List.sum_cons]
    omega

/-! ## Environment checker claims -/

/-- C5 (amended): a *missing* env file short-circuits `validate_env_file`
with exactly one FAIL test and total 1, and no section or variable checks. -/
theorem env_missing_file_single_fail (path : String)
    (req : Option (List String)) :
    (validate_env_file path Option.none req).total = 1 ∧
    (validate_env_file path Option.none req).tests.length = 1 ∧
    (validate_env_file path Option.none req).failed_tests = 1 ∧
    (validate_env_file path Option.none req).passed_tests = 0 ∧
    (validate_env_file path Option.none req).passed = false ∧
    (validate_env_file path Option.none req).tests.map (fun t => t.status) =
      [some "FAIL"] := by
  simp [validate_env_file]

/-- C5 counterexample: a *blank but existing* env file does not
short-circuit — against the orchestrator's three required sections the
checker emits 15 tests (3 section checks and 12 presence checks), 11 of
them FAIL, not a single FAIL with total 1. -/
theorem env_blank_file_not_single_fail :
    (validate_env_file ".env" (some "") (some orchestratorEnvSections)).total
        = 15 ∧
    (validate_env_file ".env" (some "")
        (some orchestratorEnvSections)).failed_tests = 11 ∧
    (validate_env_file ".env" (some "") (some orchestratorEnvSections)).total
      ≠ 1 := by
  refine ⟨by decide, by decide, by decide⟩

/-! ## Endpoint discovery claims -/

/-- C6 counterexample: a probe answering status 500 — which is not 404 — on
every common path discovers nothing, so discovery does not keep every
non-404 path. -/
theorem discovery_drops_500 :
    discover_api_endpoints (fun _ => Except.ok 500) = [] ∧
    (500 : Nat) ≠ 404 ∧ common_paths ≠ [] := by
  refine ⟨by decide, by decide, by decide⟩

/-- C6 (amended): discovery keeps, in probe order, exactly the common paths
whose probe response status is `< 404` (a raising probe skips its path), and
every auto-discovered endpoint configuration has
`authentication_required = false`. -/
theorem discovery_keeps_below_404 (probe : String → Except String Nat) :
    discover_api_endpoints probe =
      common_paths.filter (fun p =>
        match probe p with
        | Except.ok status => decide (status < 404)
        | Except.error _ => false) ∧
    (autoEndpointConfigs probe).all
      (fun cfg => !cfg.authentication_required) = true := by
  constructor
  · suffices h : ∀ (paths : List String) (acc : List String),
        paths.foldl
          (fun discovered path =>
            match probe path with
            | Except.ok status =>
                if status < 404 then discovered ++ [path] else discovered
            | Except.error _ => discovered) acc =
        acc ++ paths.filter (fun p =>
          match probe p with
          | Except.ok status => decide (status < 404)
          | Except.error _ => false) by
      simpa [discover_api_endpoints] using h common_paths []
    intro paths
    induction paths with
    | nil => intro acc; simp
    | cons p rest ih =>
      intro acc
      simp only [List.foldl_cons, List.filter_cons]
      cases hp : probe p with
      | ok status =>
          by_cases hs : status < 404 <;> simp [hp, hs, ih]
      | error e => simp [hp, ih]
  · simp only [autoEndpointConfigs, List.all_eq_true, List.mem_map]
    rintro cfg ⟨e, _, rfl⟩
    rfl

/-! ## Schema validator claims

`matchesSpec` is the specification's own recursive description of a value
matching a schema (spec §4.1/§8), written independently of the code, to be
compared with `validate_schema`.
-/

mutual

/-- The spec's matching relation: a primitive tag matches by instance
check; a list schema requires a sequence whose every element matches the
element schema; a mapping schema requires every schema key present with a
recursively matching value; other schema shapes trivially pass. -/
def matchesSpec : PyVal → Schema → Bool
  | d, Schema.tyTag t => pyIsinstance d t
  | d, Schema.listSchema ss =>
      match d with
      | PyVal.list xs =>
        match ss with
        | [] => true
        | s0 :: _ => allItemsMatch s0 xs
      | _ => false
  | d, Schema.dictSchema kvs =>
      match d with
      | PyVal.dict dkvs => allKeysMatch dkvs kvs
      | _ => false
  | _, Schema.other => true
termination_by d s => (sizeOf d, 0)

def allItemsMatch (s0 : Schema) : List PyVal → Bool
  | [] => true
  | x :: rest => matchesSpec x s0 && allItemsMatch s0 rest
termination_by xs => (sizeOf xs, 0)

def allKeysMatch (dkvs : List (String × PyVal)) : List (String × Schema) → Bool
  | [] => true
  | (key, vs) :: rest =>
      match h : lookupVal dkvs key with
      | Option.none => false
      | some v => matchesSpec v vs && allKeysMatch dkvs rest
termination_by kvs => (sizeOf dkvs, sizeOf kvs)
decreasing_by
  all_goals first
    | decreasing_tactic
    | (simp_wf; exact Prod.Lex.left _ _ (sizeOf_lookupVal h))

end

theorem validateItems_fst (s0 : Schema) (xs : List PyVal)
    (h : ∀ x ∈ xs, (validate_schema x s0).1 = matchesSpec x s0) (i : Nat) :
    (validateItems s0 xs i).1 = allItemsMatch s0 xs := by
  induction xs generalizing i with
  | nil => simp [validateItems, allItemsMatch]
  | cons x rest ih =>
    have hx := h x (by simp)
    rw [validateItems, allItemsMatch]
    cases hv : validate_schema x s0 with
    | mk fst snd =>
      cases fst with
      | true =>
          rw [ih (fun y hy => h y (by simp [hy])) (i + 1)]
          rw [hv] at hx
          simp [← hx]
      | false =>
          rw [hv] at hx
          simp [← hx]

theorem validateKeys_fst (dkvs : List (String × PyVal))
    (kvs : List (String × Schema))
    (h : ∀ (k : String) (v : PyVal), lookupVal dkvs k = some v →
      ∀ s : Schema, (validate_schema v s).1 = matchesSpec v s) :
    (validateKeys dkvs kvs).1 = allKeysMatch dkvs kvs := by
  induction kvs with
  | nil => simp [validateKeys, allKeysMatch]
  | cons kv rest ih =>
    obtain ⟨key, vs⟩ := kv
    rw [validateKeys, allKeysMatch]
    cases hl : lookupVal dkvs key with
    | none => simp
    | some v =>
      have hv := h key v hl vs
      cases hvs : validate_schema v vs with
      | mk fst snd =>
        rw [hvs] at hv
        cases fst with
        | true => simp [hvs, ← hv, ih]
        | false => simp [hvs, ← hv]

theorem sizeOf_mem_list {x : PyVal} {xs : List PyVal} (h : x ∈ xs) :
    sizeOf x < sizeOf (PyVal.list xs) := by
  have := List.sizeOf_lt_of_mem h
  simp only [PyVal.list.sizeOf_spec]
  omega

theorem validate_schema_fst (d : PyVal) (s : Schema) :
    (validate_schema d s).1 = matchesSpec d s := by
  suffices H : ∀ (n : Nat) (d : PyVal), sizeOf d ≤ n → ∀ s : Schema,
      (validate_schema d s).1 = matchesSpec d s from H (sizeOf d) d le_rfl s
  intro n
  induction n with
  | zero => intro d hd; cases d <;> simp at hd
  | succ n ih =>
    intro d hd s
    cases s with
    | tyTag t =>
        simp only [validate_schema, matchesSpec]
        cases pyIsinstance d t <;> simp
    | other => simp [validate_schema, matchesSpec]
    | listSchema ss =>
        cases d <;> try simp [validate_schema, matchesSpec]
        case list xs =>
          cases ss with
          | nil => simp [validate_schema, matchesSpec]
          | cons s0 rest =>
            simp only [validate_schema, matchesSpec]
            apply validateItems_fst
            intro x hx
            have h1 := sizeOf_mem_list hx
            simp only [PyVal.list.sizeOf_spec] at hd h1
            exact ih x (by omega) _
    | dictSchema kvs =>
        cases d <;> try simp [validate_schema, matchesSpec]
        case dict dkvs =>
          apply validateKeys_fst
          intro k v hl _
          have hlt := sizeOf_lookupVal hl
          simp only [PyVal.dict.sizeOf_spec] at hd
          exact ih v (by omega) _

theorem append_ne_empty_left {a : String} (b : String) (ha : a ≠ "") :
    a ++ b ≠ "" := by
  intro hc
  apply ha
  have hd : a.data ++ b.data = [] := by
    have h := congrArg String.data hc
    rw [String.data_append] at h
    exact h
  have hnil : a.data = [] := (List.append_eq_nil.mp hd).1
  exact String.ext (hnil.trans rfl)

theorem validateKeys_cons (dkvs : List (String × PyVal)) (key : String)
    (vs : Schema) (rest : List (String × Schema)) :
    validateKeys dkvs ((key, vs) :: rest) =
      match lookupVal dkvs key with
      | Option.none => (false, "Missing required key: " ++ pyQuote key)
      | some v =>
        match validate_schema v vs with
        | (true, _) => validateKeys dkvs rest
        | (false, msg) => (false, pyQuote key ++ " -> " ++ msg) := by
  rw [validateKeys]
  cases lookupVal dkvs key <;> rfl

theorem validateKeys_cons_none (dkvs : List (String × PyVal)) (key : String)
    (vs : Schema) (rest : List (String × Schema))
    (hl : lookupVal dkvs key = Option.none) :
    validateKeys dkvs ((key, vs) :: rest) =
      (false, "Missing required key: " ++ pyQuote key) := by
  rw [validateKeys_cons, hl]

theorem validateKeys_cons_some (dkvs : List (String × PyVal)) (key : String)
    (vs : Schema) (rest : List (String × Schema)) (v : PyVal)
    (hl : lookupVal dkvs key = some v) :
    validateKeys dkvs ((key, vs) :: rest) =
      match validate_schema v vs with
      | (true, _) => validateKeys dkvs rest
      | (false, msg) => (false, pyQuote key ++ " -> " ++ msg) := by
  rw [validateKeys_cons, hl]

theorem validateItems_true (s0 : Schema) (xs : List PyVal) :
    ∀ i : Nat, (validateItems s0 xs i).1 = true →
      validateItems s0 xs i = (true, "") := by
  induction xs with
  | nil => intro i _; rw [validateItems]
  | cons x rest ih =>
    intro i h
    rw [validateItems] at h ⊢
    cases hv : validate_schema x s0 with
    | mk fst snd =>
      rw [hv] at h
      cases fst with
      | true => exact ih (i + 1) h
      | false => simp at h

theorem validateKeys_true (dkvs : List (String × PyVal)) :
    ∀ kvs : List (String × Schema), (validateKeys dkvs kvs).1 = true →
      validateKeys dkvs kvs = (true, "") := by
  intro kvs
  induction kvs with
  | nil => intro _; rw [validateKeys]
  | cons kv rest ih =>
    obtain ⟨key, vs⟩ := kv
    intro h
    cases hl : lookupVal dkvs key with
    | none => rw [validateKeys_cons_none dkvs key vs rest hl] at h; simp at h
    | some v =>
      rw [validateKeys_cons_some dkvs key vs rest v hl] at h ⊢
      cases hv : validate_schema v vs with
      | mk fst snd =>
        rw [hv] at h
        cases fst with
        | true => exact ih h
        | false => simp at h

theorem validate_schema_true_eq (d : PyVal) (s : Schema)
    (h : (validate_schema d s).1 = true) : validate_schema d s = (true, "") := by
  cases s with
  | tyTag t =>
      simp only [validate_schema] at h ⊢
      cases hp : pyIsinstance d t
      · rw [hp] at h; simp at h
      · rfl
  | other => simp only [validate_schema]
  | listSchema ss =>
      cases d with
      | list xs =>
          cases ss with
          | nil => simp [validate_schema]
          | cons s0 rest =>
              simp only [validate_schema] at h ⊢
              exact validateItems_true s0 xs 0 h
      | str a => simp [validate_schema] at h
      | int a => simp [validate_schema] at h
      | bool a => simp [validate_schema] at h
      | float a => simp [validate_schema] at h
      | dict a => simp [validate_schema] at h
      | none => simp [validate_schema] at h
  | dictSchema kvs =>
      cases d with
      | dict dkvs =>
          simp only [validate_schema] at h ⊢
          exact validateKeys_true dkvs kvs h
      | str a => simp [validate_schema] at h
      | int a => simp [validate_schema] at h
      | bool a => simp [validate_schema] at h
      | float a => simp [validate_schema] at h
      | list a => simp [validate_schema] at h
      | none => simp [validate_schema] at h

theorem validateItems_false_ne (s0 : Schema) (xs : List PyVal) :
    ∀ i : Nat, (validateItems s0 xs i).1 = false →
      (validateItems s0 xs i).2 ≠ "" := by
  induction xs with
  | nil => intro i h; rw [validateItems] at h; simp at h
  | cons x rest ih =>
    intro i h
    rw [validateItems] at h ⊢
    cases hv : validate_schema x s0 with
    | mk fst snd =>
      rw [hv] at h
      cases fst with
      | true => exact ih (i + 1) h
      | false =>
        show ("item[" ++ toString i ++ "] -> " ++ snd) ≠ ""
        exact append_ne_empty_left snd
          (append_ne_empty_left _ (append_ne_empty_left _ (by decide)))

theorem validateKeys_false_ne (dkvs : List (String × PyVal)) :
    ∀ kvs : List (String × Schema), (validateKeys dkvs kvs).1 = false →
      (validateKeys dkvs kvs).2 ≠ "" := by
  intro kvs
  induction kvs with
  | nil => intro h; rw [validateKeys] at h; simp at h
  | cons kv rest ih =>
    obtain ⟨key, vs⟩ := kv
    intro h
    cases hl : lookupVal dkvs key with
    | none =>
      rw [validateKeys_cons_none dkvs key vs rest hl]
      exact append_ne_empty_left _ (by decide)
    | some v =>
      rw [validateKeys_cons_some dkvs key vs rest v hl] at h ⊢
      cases hv : validate_schema v vs with
      | mk fst snd =>
        rw [hv] at h
        cases fst with
        | true => exact ih h
        | false =>
            show (pyQuote key ++ " -> " ++ snd) ≠ ""
            refine append_ne_empty_left snd (append_ne_empty_left _ ?_)
            show ("\x27" ++ key ++ "\x27") ≠ ""
            exact append_ne_empty_left _ (append_ne_empty_left _ (by decide))

theorem validate_schema_false_ne (d : PyVal) (s : Schema)
    (h : (validate_schema d s).1 = false) : (validate_schema d s).2 ≠ "" := by
  cases s with
  | tyTag t =>
      simp only [validate_schema] at h ⊢
      cases hp : pyIsinstance d t
      · exact append_ne_empty_left _ (append_ne_empty_left _
          (append_ne_empty_left _ (by decide)))
      · rw [hp] at h; simp at h
  | other => simp [validate_schema] at h
  | listSchema ss =>
      cases d with
      | list xs =>
          cases ss with
          | nil => simp [validate_schema] at h
          | cons s0 rest =>
              simp only [validate_schema] at h ⊢
              exact validateItems_false_ne s0 xs 0 h
      | str a =>
          simp only [validate_schema]
          exact append_ne_empty_left _ (by decide)
      | int a =>
          simp only [validate_schema]
          exact append_ne_empty_left _ (by decide)
      | bool a =>
          simp only [validate_schema]
          exact append_ne_empty_left _ (by decide)
      | float a =>
          simp only [validate_schema]
          exact append_ne_empty_left _ (by decide)
      | dict a =>
          simp only [validate_schema]
          exact append_ne_empty_left _ (by decide)
      | none =>
          simp only [validate_schema]
          exact append_ne_empty_left _ (by decide)
  | dictSchema kvs =>
      cases d with
      | dict dkvs =>
          simp only [validate_schema] at h ⊢
          exact validateKeys_false_ne dkvs kvs h
      | str a =>
          simp only [validate_schema]
          exact append_ne_empty_left _ (by decide)
      | int a =>
          simp only [validate_schema]
          exact append_ne_empty_left _ (by decide)
      | bool a =>
          simp only [validate_schema]
          exact append_ne_empty_left _ (by decide)
      | float a =>
          simp only [validate_schema]
          exact append_ne_empty_left _ (by decide)
      | list a =>
          simp only [validate_schema]
          exact append_ne_empty_left _ (by decide)
      | none =>
          simp only [validate_schema]
          exact append_ne_empty_left _ (by decide)

theorem validateItems_false_spec (s0 : Schema) (xs : List PyVal) :
    ∀ i : Nat, (validateItems s0 xs i).1 = false →
      ∃ (j : Nat) (x : PyVal), xs.get? j = some x ∧
        (validate_schema x s0).1 = false ∧
        (∀ (k : Nat) (y : PyVal), k < j → xs.get? k = some y →
          (validate_schema y s0).1 = true) ∧
        (validateItems s0 xs i).2 =
          "item[" ++ toString (i + j) ++ "] -> " ++ (validate_schema x s0).2 := by
  induction xs with
  | nil => intro i h; rw [validateItems] at h; simp at h
  | cons x rest ih =>
    intro i h
    rw [validateItems] at h ⊢
    cases hv : validate_schema x s0 with
    | mk fst snd =>
      rw [hv] at h
      cases fst with
      | false =>
        refine ⟨0, x, rfl, by rw [hv], ?_, ?_⟩
        · intro k y hk _
          exact absurd hk (Nat.not_lt_zero k)
        · rw [hv]
          simp
      | true =>
        obtain ⟨j, x', hget, hfalse, hpre, hmsg⟩ := ih (i + 1) h
        refine ⟨j + 1, x', by simpa using hget, hfalse, ?_, ?_⟩
        · intro k y hk hy
          cases k with
          | zero =>
              simp only [List.get?_cons_zero, Option.some.injEq] at hy
              rw [← hy, hv]
          | succ k' => exact hpre k' y (by omega) (by simpa using hy)
        · rw [hmsg]
          have harith : i + 1 + j = i + (j + 1) := by omega
          rw [harith]

theorem validateKeys_false_spec (dkvs : List (String × PyVal)) :
    ∀ kvs : List (String × Schema), (validateKeys dkvs kvs).1 = false →
      ∃ (pre : List (String × Schema)) (key : String) (vs : Schema)
        (post : List (String × Schema)),
        kvs = pre ++ (key, vs) :: post ∧
        (∀ p ∈ pre, ∃ v', lookupVal dkvs p.1 = some v' ∧
          (validate_schema v' p.2).1 = true) ∧
        ((lookupVal dkvs key = Option.none ∧
            (validateKeys dkvs kvs).2 =
              "Missing required key: " ++ pyQuote key) ∨
          (∃ v, lookupVal dkvs key = some v ∧
            (validate_schema v vs).1 = false ∧
            (validateKeys dkvs kvs).2 =
              pyQuote key ++ " -> " ++ (validate_schema v vs).2)) := by
  intro kvs
  induction kvs with
  | nil => intro h; rw [validateKeys] at h; simp at h
  | cons kv rest ih =>
    obtain ⟨key, vs⟩ := kv
    intro h
    cases hl : lookupVal dkvs key with
    | none =>
      refine ⟨[], key, vs, rest, by simp, by simp, Or.inl ⟨hl, ?_⟩⟩
      rw [validateKeys_cons_none dkvs key vs rest hl]
    | some v =>
      rw [validateKeys_cons_some dkvs key vs rest v hl] at h ⊢
      cases hv : validate_schema v vs with
      | mk fst snd =>
        rw [hv] at h
        cases fst with
        | false =>
          refine ⟨[], key, vs, rest, by simp, by simp, Or.inr ⟨v, hl, by rw [hv], ?_⟩⟩
          rw [hv]
        | true =>
          obtain ⟨pre, key', vs', post, hsplit, hpre, hrest⟩ := ih h
          refine ⟨(key, vs) :: pre, key', vs', post, by simp [hsplit], ?_, ?_⟩
          · intro p hp
            cases hp with
            | head => exact ⟨v, hl, by rw [hv]⟩
            | tail _ hp' => exact hpre p hp'
          · exact hrest

/-- C2: `validate_schema` returns `(True, "")` exactly when the value
recursively matches the schema in the sense of the specification; every
other outcome is `(False, m)` with `m` non-empty, and for a failure below
the root the message carries the bracketed/quoted path component of the
first failing location (`item[i] -> ...` for the first failing list index,
`Missing required key: 'k'` or `'k' -> ...` for the first failing schema
key) followed by the recursive message. -/
theorem validate_schema_spec :
    (∀ (d : PyVal) (s : Schema),
      validate_schema d s = (true, "") ↔ matchesSpec d s = true) ∧
    (∀ (d : PyVal) (s : Schema),
      (validate_schema d s).1 = false → (validate_schema d s).2 ≠ "") ∧
    (∀ (xs : List PyVal) (s0 : Schema) (rest : List Schema),
      (validate_schema (PyVal.list xs) (Schema.listSchema (s0 :: rest))).1 =
          false →
      ∃ (j : Nat) (x : PyVal), xs.get? j = some x ∧
        (validate_schema x s0).1 = false ∧
        (∀ (k : Nat) (y : PyVal), k < j → xs.get? k = some y →
          (validate_schema y s0).1 = true) ∧
        (validate_schema (PyVal.list xs) (Schema.listSchema (s0 :: rest))).2 =
          "item[" ++ toString j ++ "] -> " ++ (validate_schema x s0).2) ∧
    (∀ (dkvs : List (String × PyVal)) (kvs : List (String × Schema)),
      (validate_schema (PyVal.dict dkvs) (Schema.dictSchema kvs)).1 = false →
      ∃ (pre : List (String × Schema)) (key : String) (vs : Schema)
        (post : List (String × Schema)),
        kvs = pre ++ (key, vs) :: post ∧
        (∀ p ∈ pre, ∃ v', lookupVal dkvs p.1 = some v' ∧
          (validate_schema v' p.2).1 = true) ∧
        ((lookupVal dkvs key = Option.none ∧
            (validate_schema (PyVal.dict dkvs) (Schema.dictSchema kvs)).2 =
              "Missing required key: " ++ pyQuote key) ∨
          (∃ v, lookupVal dkvs key = some v ∧
            (validate_schema v vs).1 = false ∧
            (validate_schema (PyVal.dict dkvs) (Schema.dictSchema kvs)).2 =
              pyQuote key ++ " -> " ++ (validate_schema v vs).2))) := by
  refine ⟨?_, validate_schema_false_ne, ?_, ?_⟩
  · intro d s
    constructor
    · intro h
      rw [← validate_schema_fst d s, h]
    · intro h
      exact validate_schema_true_eq d s ((validate_schema_fst d s).trans h)
  · intro xs s0 rest h
    have h0 : (validateItems s0 xs 0).1 = false := by
      simpa only [validate_schema] using h
    obtain ⟨j, x, hget, hfalse, hpre, hmsg⟩ := validateItems_false_spec s0 xs 0 h0
    refine ⟨j, x, hget, hfalse, hpre, ?_⟩
    simpa only [validate_schema, Nat.zero_add] using hmsg
  · intro dkvs kvs h
    have h0 : (validateKeys dkvs kvs).1 = false := by
      simpa only [validate_schema] using h
    obtain ⟨pre, key, vs, post, hsplit, hpre, hrest⟩ :=
      validateKeys_false_spec dkvs kvs h0
    refine ⟨pre, key, vs, post, hsplit, hpre, ?_⟩
    simpa only [validate_schema] using hrest

/-- Witness for C2: a matching dict gives `(True, "")`; an int against a
string tag fails with the type-mismatch message; a bad second list element
is reported at `item[1]`. -/
theorem validate_schema_spec_witness :
    (validate_schema (PyVal.dict [("id", PyVal.int 3)])
        (Schema.dictSchema [("id", Schema.tyTag PyType.int)]) = (true, "") ↔
      matchesSpec (PyVal.dict [("id", PyVal.int 3)])
        (Schema.dictSchema [("id", Schema.tyTag PyType.int)]) = true) ∧
    (validate_schema (PyVal.int 5) (Schema.tyTag PyType.str)).2 ≠ "" :=
  ⟨validate_schema_spec.1 _ _,
   validate_schema_spec.2.1 _ _ (by simp [validate_schema, pyIsinstance])⟩

/-! ## Checker totality and auth-enforcement claims -/

theorem validateEndpointBody_main_ok (ctx : ValidatorCtx)
    (cfg : EndpointCfg) (tid : String) (orc : NetOracle) (resp : HttpResponse)
    (hmain : orc.mainRequest = Except.ok resp) :
    validateEndpointBody ctx cfg tid orc =
      endpointResultOf ctx cfg tid orc resp := by
  unfold validateEndpointBody
  rw [hmain]

theorem endpointResultOf_ok (ctx : ValidatorCtx) (cfg : EndpointCfg)
    (tid : String) (orc : NetOracle) (resp : HttpResponse)
    (ts : List EndpointTest)
    (hts : schemaTestsFor cfg.expected_schema cfg.required_fields resp.jsonBody
      = Except.ok ts) :
    endpointResultOf ctx cfg tid orc resp =
      Except.ok (endpointRecordOf ctx cfg tid orc resp ts) := by
  unfold endpointResultOf
  rw [hts]

theorem validate_endpoint_ok (ctx : ValidatorCtx) (cfg : EndpointCfg)
    (tid : String) (orc : NetOracle) (resp : HttpResponse)
    (ts : List EndpointTest)
    (hmain : orc.mainRequest = Except.ok resp)
    (hts : schemaTestsFor cfg.expected_schema cfg.required_fields resp.jsonBody
      = Except.ok ts) :
    validate_endpoint ctx cfg tid orc =
      Except.ok (endpointRecordOf ctx cfg tid orc resp ts) := by
  unfold validate_endpoint
  rw [validateEndpointBody_main_ok ctx cfg tid orc resp hmain,
    endpointResultOf_ok ctx cfg tid orc resp ts hts]

theorem validate_endpoint_network_fail (ctx : ValidatorCtx) (cfg : EndpointCfg)
    (tid : String) (orc : NetOracle) (e : String)
    (hmain : orc.mainRequest = Except.error e) :
    validate_endpoint ctx cfg tid orc = Except.ok
      { endpoint := cfg.endpoint
        method := pyUpper cfg.method
        url := ctx.base_url ++ cfg.endpoint
        passed := false
        tests := [⟨"Network connectivity", false, "Request failed: " ++ e⟩]
        error := some e } := by
  unfold validate_endpoint validateEndpointBody
  rw [hmain]

theorem check_connection_converts_exception (db_info : DbInfo)
    (drivers : Drivers) (orc : DBOracle) (e : String)
    (hc : orc.connectionOutcome = Except.error e) :
    (check_connection db_info drivers orc).connected = false ∧
    (check_connection db_info drivers orc).error.isSome = true := by
  unfold check_connection check_connection_body
  split_ifs <;> (try rw [hc]) <;> exact ⟨rfl, rfl⟩

theorem validate_database_stops_on_connection_failure (cs : String)
    (drivers : Drivers) (orc : DBOracle)
    (hvalid : (parse_db_url cs).valid = true)
    (hconn : (check_connection (parse_db_url cs) drivers orc).connected = false) :
    (validate_database cs drivers orc).tests.length = 3 ∧
    (validate_database cs drivers orc).tests.getLast? = some
      ⟨"Database connection", some "FAIL", Option.none,
        "Connection failed: " ++
          ((check_connection (parse_db_url cs) drivers orc).error.getD
            "Unknown error")⟩ ∧
    (validate_database cs drivers orc).passed = false := by
  unfold validate_database
  simp [hvalid, hconn, List.getLast?]

/-- C3 (code bug): the checker is not total. With `required_fields`
configured and a JSON body that parses to a scalar, the membership test of
Test 3 raises `TypeError`, which the `except requests.RequestException`
handler does not catch, so the exception escapes `validate_endpoint`;
network failures, by contrast, are converted into the failing
"Network connectivity" test, and a database connection exception becomes
the FAIL-status "Database connection" test with no further steps. -/
theorem required_fields_typeerror_escape :
    validate_endpoint ⟨"http://h", [], 10, 500⟩
        { endpoint := "/x", required_fields := some ["id"] } "t"
        ⟨Except.ok ⟨200, [("Content-Type", "application/json")],
          some (PyVal.int 5), "5"⟩, fun _ => Except.error "refused", 0⟩ =
      Except.error (PyExc.typeError
        ("argument of type " ++ pyQuote "int" ++ " is not iterable")) ∧
    validate_endpoint ⟨"http://h", [], 10, 500⟩ { endpoint := "/x" } "t"
        ⟨Except.error "timed out", fun _ => Except.error "refused", 0⟩ =
      Except.ok
        { endpoint := "/x"
          method := "GET"
          url := "http://h/x"
          passed := false
          tests := [⟨"Network connectivity", false, "Request failed: timed out"⟩]
          error := some "timed out" } ∧
    (validate_database "postgresql://u:p@h:5432/db" ⟨true, false, false⟩
        ⟨Except.error "conn refused", Except.ok [], Except.ok []⟩).tests.map
          (fun t => t.status) = [some "PASS", some "PASS", some "FAIL"] := by
  refine ⟨rfl, rfl, by decide⟩

theorem requiredFieldsTest_no_auth_filter (json : PyVal)
    (rf : Option (List String)) (ts : List EndpointTest)
    (h : requiredFieldsTest json rf = Except.ok ts) :
    ts.filter (fun t => t.name == "Auth enforcement") = [] := by
  have hname : (("Required fields check" : String) == "Auth enforcement")
      = false := by decide
  cases rf with
  | none =>
    simp only [requiredFieldsTest] at h
    cases h
    rfl
  | some fields =>
    simp only [requiredFieldsTest] at h
    by_cases he : fields.isEmpty = true
    · rw [if_pos he] at h
      cases h
      rfl
    · rw [if_neg he] at h
      cases hm : missingFields json fields with
      | ok missing =>
          rw [hm] at h
          cases h
          simp [List.filter, hname]
      | error e =>
          rw [hm] at h
          cases h

theorem schemaTestsFor_no_auth_filter (es : Option Schema)
    (rf : Option (List String)) (jb : Option PyVal) (ts : List EndpointTest)
    (h : schemaTestsFor es rf jb = Except.ok ts) :
    ts.filter (fun t => t.name == "Auth enforcement") = [] := by
  have hname : (("Schema validation" : String) == "Auth enforcement")
      = false := by decide
  cases jb with
  | none =>
    simp only [schemaTestsFor] at h
    cases h
    rfl
  | some json =>
    cases es with
    | some sch =>
      simp only [schemaTestsFor] at h
      by_cases ht : sch.pyTruthy = true
      · rw [if_pos ht] at h
        cases h
        simp [List.filter, hname]
      · rw [if_neg ht] at h
        exact requiredFieldsTest_no_auth_filter json rf ts h
    | none =>
      simp only [schemaTestsFor] at h
      exact requiredFieldsTest_no_auth_filter json rf ts h

theorem authTestsFor_filter_self (hdrs : List (String × String))
    (f : List (String × String) → Except String HttpResponse) :
    (authTestsFor true hdrs f).filter (fun t => t.name == "Auth enforcement")
      = authTestsFor true hdrs f := by
  unfold authTestsFor
  simp only [if_true]
  cases f (hdrs.filter (fun p => p.1 != "Authorization")) <;> simp [List.filter]

/-- C7 counterexample: an endpoint declaring `authentication_required` that
also configures `required_fields`, probed against a scalar JSON body,
raises `TypeError` in Test 3 before the auth retry: `validate_endpoint`
produces no result record and no "Auth enforcement" sub-test at all. -/
theorem auth_retry_skipped_on_typeerror :
    validate_endpoint ⟨"http://h", [("Authorization", "Bearer tok")], 10, 500⟩
        { endpoint := "/a", required_fields := some ["id"],
          authentication_required := true } "t"
        ⟨Except.ok ⟨200, [], some (PyVal.bool true), "true"⟩,
         fun _ => Except.ok ⟨200, [], Option.none, ""⟩, 0⟩ =
      Except.error (PyExc.typeError
        ("argument of type " ++ pyQuote "bool" ++ " is not iterable")) := rfl

/-- C7 (amended): with `authentication_required`, whenever the main request
completed and Test 3 (schema/required fields) completes without raising —
in particular whenever `required_fields` is unset or the JSON body is a
container — the request is repeated with the `Authorization` header
stripped; the single "Auth enforcement" sub-test passes iff the
unauthenticated status is 401 or 403 or the retry raises, and a 200 fails
it with message "Endpoint allowed unauthorized access"; inside the result
record that sub-test is exactly the auth battery computed from the
stripped headers. -/
theorem auth_enforcement_spec :
    (∀ (request_headers : List (String × String))
        (noAuth : List (String × String) → Except String HttpResponse),
      (authTestsFor true request_headers noAuth).length = 1 ∧
      ∀ t ∈ authTestsFor true request_headers noAuth,
        t.name = "Auth enforcement" ∧
        (t.passed = true ↔
          (∃ r2, noAuth (request_headers.filter (fun p => p.1 != "Authorization"))
              = Except.ok r2 ∧ (r2.status_code = 401 ∨ r2.status_code = 403)) ∨
          (∃ e, noAuth (request_headers.filter (fun p => p.1 != "Authorization"))
              = Except.error e)) ∧
        (∀ r2, noAuth (request_headers.filter (fun p => p.1 != "Authorization"))
            = Except.ok r2 → r2.status_code = 200 →
          t.passed = false ∧
            t.message = "Endpoint allowed unauthorized access")) ∧
    (∀ (ctx : ValidatorCtx) (cfg : EndpointCfg) (tid : String)
        (orc : NetOracle) (resp : HttpResponse) (ts : List EndpointTest),
      orc.mainRequest = Except.ok resp → cfg.authentication_required = true →
      schemaTestsFor cfg.expected_schema cfg.required_fields resp.jsonBody =
        Except.ok ts →
      ∃ r, validate_endpoint ctx cfg tid orc = Except.ok r ∧
        r.tests.filter (fun t => t.name == "Auth enforcement") =
          authTestsFor true (dictSet ctx.headers "X-Request-ID" tid)
            orc.noAuthRequest) := by
  constructor
  · intro request_headers noAuth
    unfold authTestsFor
    simp only [if_true]
    cases hr : noAuth (request_headers.filter (fun p => p.1 != "Authorization")) with
    | ok r2 =>
      refine ⟨rfl, ?_⟩
      intro t ht
      simp only [List.mem_singleton] at ht
      subst ht
      refine ⟨rfl, ?_, ?_⟩
      · simp only [beq_iff_eq, Bool.or_eq_true]
        constructor
        · intro hp
          exact Or.inl ⟨r2, rfl, hp⟩
        · rintro (⟨r2', hr2', hst⟩ | ⟨e, he⟩)
          · cases hr2'
            exact hst
          · cases he
      · intro r2' hr2' h200
        cases hr2'
        constructor
        · simp [h200]
        · simp [h200]
    | error e =>
      refine ⟨rfl, ?_⟩
      intro t ht
      simp only [List.mem_singleton] at ht
      subst ht
      refine ⟨rfl, ?_, ?_⟩
      · constructor
        · intro _
          exact Or.inr ⟨e, rfl⟩
        · intro _
          rfl
      · intro r2' hr2' _
        cases hr2'
  · intro ctx cfg tid orc resp ts hmain hauth hts
    refine ⟨_, validate_endpoint_ok ctx cfg tid orc resp ts hmain hts, ?_⟩
    have hts0 := schemaTestsFor_no_auth_filter cfg.expected_schema
      cfg.required_fields resp.jsonBody ts hts
    have hn1 : (("Tracking ID support" : String) == "Auth enforcement") = false := by
      decide
    have hn2 : (("Status code check" : String) == "Auth enforcement") = false := by
      decide
    have hn3 : (("Content type check" : String) == "Auth enforcement") = false := by
      decide
    have hn4 : (("SLA Response time" : String) == "Auth enforcement") = false := by
      decide
    simp only [endpointRecordOf, hauth, List.filter_append, List.filter_cons,
      List.filter_nil, hn1, hn2, hn3, hn4, if_false, hts0,
      authTestsFor_filter_self, List.nil_append, List.append_nil]
    simp [authTestsFor_filter_self]

/-- Witness for C7: a 200 response to the stripped-header retry yields the
failing "Auth enforcement" test with the quoted message. -/
theorem auth_enforcement_spec_witness :
    ∃ t, t ∈ authTestsFor true []
        (fun _ => Except.ok ⟨200, [], Option.none, ""⟩) ∧
      t.passed = false ∧ t.message = "Endpoint allowed unauthorized access" := by
  obtain ⟨hlen, hall⟩ := auth_enforcement_spec.1 []
    (fun _ => Except.ok ⟨200, [], Option.none, ""⟩)
  have ht : (⟨"Auth enforcement", false, "Endpoint allowed unauthorized access"⟩ :
      EndpointTest) ∈ authTestsFor true []
        (fun _ => Except.ok ⟨200, [], Option.none, ""⟩) := by
    simp [authTestsFor]
  have hprops := hall _ ht
  exact ⟨_, ht, hprops.2.2 ⟨200, [], Option.none, ""⟩ rfl rfl⟩

end PVF
